import Mathlib

/-!
Verification of the onsemi HAL trim / RF / clock / power-mode subsystems.

Shallow embedding of the C sources in `source/trim.c`, `source/trim_vddif.c`,
`source/rffe.c`, `source/clock.c` and `source/power_modes.c`, together with the
constant definitions of `include/trim.h`, `include/rffe.h` and
`include/power_modes.h`.  Memory-mapped registers are modelled as fields of
explicit state structures; pointers that may be NULL are modelled as `Option`.
The register file (`hw.h`) and the CRC peripheral are external to the
repository; where their layout or behaviour is needed it is modelled from the
specification and marked as such.
-/

set_option maxRecDepth 10000

namespace HAL

/-! ## Constants from include/trim.h -/

def NULL_POINTER : Nat := 0

def MIN_32_BIT : Nat := 0x00000000
def MAX_32_BIT : Nat := 0xFFFFFFFF
def MIN_16_BIT : Nat := 0x0000
def MAX_16_BIT : Nat := 0xFFFF
def MIN_8_BIT : Nat := 0x00
def MAX_8_BIT : Nat := 0xFF
def MAX_4_BIT : Nat := 0xF

def ERROR_NO_ERROR : Nat := 0
def ERROR_NULL : Nat := 1 <<< 1
def ERROR_NO_TRIM_FOUND : Nat := 1 <<< 3
def ERROR_INVALID_TRIM : Nat := 1 <<< 4
def ERROR_INVALID_CRC : Nat := 1 <<< 5
def ERROR_BG_INVALID : Nat := 1 <<< 6
def ERROR_BG_V_INVALID : Nat := 1 <<< 7
def ERROR_BG_I_INVALID : Nat := 1 <<< 8
def ERROR_DCDC_INVALID : Nat := 1 <<< 9
def ERROR_VDDC_INVALID : Nat := 1 <<< 10
def ERROR_VDDC_STBY_INVALID : Nat := 1 <<< 11
def ERROR_VDDM_INVALID : Nat := 1 <<< 12
def ERROR_VDDM_STBY_INVALID : Nat := 1 <<< 13
def ERROR_VDDRF_INVALID : Nat := 1 <<< 14
def ERROR_VDDPA_INVALID : Nat := 1 <<< 15
def ERROR_VDDPA_MIN_INVALID : Nat := 1 <<< 16
def ERROR_VDDIF_INVALID : Nat := 1 <<< 17
def ERROR_VDDFLASH_INVALID : Nat := 1 <<< 18
def ERROR_RCOSC_INVALID : Nat := 1 <<< 19
def ERROR_RCOSC32_INVALID : Nat := 1 <<< 20
def ERROR_LSAD_INVALID : Nat := 1 <<< 21
def ERROR_TEMPERATURE_INVALID : Nat := 1 <<< 22
def ERROR_THERMISTOR_INVALID : Nat := 1 <<< 23
def ERROR_MEASURED_INVALID : Nat := 1 <<< 25
def ERROR_TRIM_CUSTOM_SIGNATURE_INVALID : Nat := 1 <<< 26
def ERROR_TRIM_CUSTOM_ICH_INVALID : Nat := 1 <<< 27
def ERROR_TRIM_CUSTOM_XTAL_INVALID : Nat := 1 <<< 28

def TRIM_8_BIT_TRIM_MASK : Nat := 0xFF
def TRIM_16_BIT_TRIM_MASK : Nat := 0xFFFF

/-- Modelled from the spec: `TRIM_RECORDS` comes from the external register
file (`hw.h`, not in the repository); the redundant per-domain sub-record
arrays hold 4 records, matching the `i < 4` verification loop of
`Sys_Trim_VerifyTrims`. -/
def TRIM_RECORDS : Nat := 4

/-- Modelled from the spec: `TRIM_RC_RECORDS` comes from the external register
file; the spec describes an RC-oscillator domain with several records
(`RC-oscillator ×N`, targets RC3/RC12/RC24/RC48), modelled as 4. -/
def TRIM_RC_RECORDS : Nat := 4

/-- Modelled from the spec: record count of the thermistor table, from the
external register file. -/
def TRIM_THERMISTOR_RECORDS : Nat := 2

/-- Modelled from the spec: word offset of the bandgap current records inside
the bandgap table, from the external register file. -/
def TRIM_BANDGAP_CURRENT_OFFSET : Nat := 4

/-! ## CRC peripheral model

Modelled from the spec: the CRC computation is performed by the external CRC
peripheral (`crc.h` only pokes its registers).  The spec names the two engines
CRC-CCITT (16 bit) and CRC-32; they are modelled as standard MSB-first
polynomial division over 32-bit words. -/

/-- One shift step of an MSB-first CRC of the given width. -/
def crcShiftBit (poly width acc : Nat) (b : Bool) : Nat :=
  let top := acc.testBit (width - 1)
  let acc1 := ((acc <<< 1) ||| (if b then 1 else 0)) % 2 ^ width
  if top then acc1 ^^^ poly else acc1

/-- Feed one 32-bit word (most significant bit first) into the CRC. -/
def crcAddWord (poly width acc w : Nat) : Nat :=
  (List.range 32).foldl (fun a i => crcShiftBit poly width a (w.testBit (31 - i))) acc

/-- Modelled from the spec: CRC-CCITT over a list of 32-bit words. -/
def crcCCITTWords (ws : List Nat) : Nat := ws.foldl (crcAddWord 0x1021 16) 0xFFFF

/-- Modelled from the spec: CRC-32 over a list of 32-bit words. -/
def crc32Words (ws : List Nat) : Nat := ws.foldl (crcAddWord 0x04C11DB7 32) 0xFFFFFFFF

/-! ## The trim record (`TRIM_Type`)

Modelled from the spec: the layout of `TRIM_Type` is declared in the external
register file (`hw.h`, not in the repository).  Each sub-record is a packed
32-bit word; the decoded fields used by `trim.c` are carried as structure
fields, and the packed-word view consumed by `Sys_Trim_GetTrim` is rebuilt by
the `...Word` encoders below (little-endian ARM layout: low halfword = trim,
high halfword = target; for the dual-byte-packed domains the normal byte is
the low byte and the standby byte the high byte of each halfword).  Arrays are
modelled as total functions from `Nat`; indices past the declared array length
model the adjacent out-of-record memory the C pointer arithmetic can reach. -/

/-- A (16-bit target, 16-bit trim) record. -/
structure TrimPair where
  target : Nat
  trim : Nat
deriving DecidableEq

/-- A dual-byte-packed record (VDDC / VDDM / VDDPA): normal and standby
bytes packed into one word. -/
structure ByteRecord where
  trim_voltage : Nat
  trim_standby : Nat
  target_voltage : Nat
  target_standby : Nat
deriving DecidableEq

/-- LSAD gain/offset compensation block. -/
structure LsadTrim where
  hf_offset : Nat
  hf_gain : Nat
  lf_offset : Nat
  lf_gain : Nat
deriving DecidableEq

/-- Temperature sensor trim block. -/
structure TempSensorTrim where
  offset : Nat
deriving DecidableEq

/-- Thermistor trim record. -/
structure ThermistorRecord where
  bias : Nat
  trim : Nat
deriving DecidableEq

/-- Measured reference values block. -/
structure MeasuredTrim where
  temp_sensor_30C : Nat
  bandgap_vref_0_75V : Nat
  lsad_vref_1_0V_internal : Nat
  wedac_600mV : Nat
deriving DecidableEq

/-- The non-volatile trim region.  `covered` carries the raw words from the
region base through `SOS_REV` inclusive, the exact range accumulated by
`Sys_Trim_CheckCRC`; the decoded per-domain fields are alongside. -/
structure TRIM_Type where
  bandgap : Nat → TrimPair
  bandgap_current : Nat → TrimPair
  dcdc : Nat → TrimPair
  vddc : Nat → ByteRecord
  vddm : Nat → ByteRecord
  vddrf : Nat → TrimPair
  vddpa : Nat → ByteRecord
  vddif : Nat → TrimPair
  vddflash : Nat → TrimPair
  rcosc : Nat → TrimPair
  rcosc32 : Nat → TrimPair
  lsad_trim : LsadTrim
  temp_sensor : TempSensorTrim
  thermistor : Nat → ThermistorRecord
  measured : MeasuredTrim
  CHECKSUM : Nat
  covered : List Nat

/-- Packed-word view of a `TrimPair` (target in the high halfword). -/
def pairWord (p : TrimPair) : Nat := (p.trim % 2 ^ 16) + (p.target % 2 ^ 16) * 2 ^ 16

/-- Packed-word view of a `ByteRecord`. -/
def byteRecordWord (b : ByteRecord) : Nat :=
  (b.trim_voltage % 2 ^ 8) + (b.trim_standby % 2 ^ 8) * 2 ^ 8 +
    (b.target_voltage % 2 ^ 8) * 2 ^ 16 + (b.target_standby % 2 ^ 8) * 2 ^ 24

/-- Packed-word view of a `ThermistorRecord` (bias is the lookup target). -/
def thermistorWord (t : ThermistorRecord) : Nat :=
  (t.trim % 2 ^ 16) + (t.bias % 2 ^ 16) * 2 ^ 16

/-- The first `n` packed words of a record table. -/
def fieldWords {α : Type} (f : Nat → α) (enc : α → Nat) (n : Nat) : List Nat :=
  (List.range n).map (fun i => enc (f i))

/-! ## Sys_Trim_GetTrim (trim.c lines 449-557) -/

/-- The scan loop of `Sys_Trim_GetTrim`.  `cell` is the current content of the
out-parameter `*trim_val`; `ret` is the value `ret_val` carries into the next
loop test (the miss value of the previous iteration, or the indeterminate
initial value when the record count is zero). -/
def Sys_Trim_GetTrim_loop (words : List Nat) (trim_target : Nat) (cell ret : Nat) :
    Nat × Nat :=
  match words with
  | [] => (ret, cell)
  | w :: rest =>
    -- ret_val = ERROR_NO_ERROR, then the sentinel-word check
    let ret1 := if w = MIN_32_BIT ∨ w = MAX_32_BIT then ERROR_INVALID_TRIM else ERROR_NO_ERROR
    let stored_target := (w >>> 16) &&& TRIM_16_BIT_TRIM_MASK
    let stored_trim := w &&& TRIM_16_BIT_TRIM_MASK
    if stored_target > MAX_8_BIT ∧ ret1 = ERROR_NO_ERROR then
      -- 16-bit trim target: VDDC, VDDM, VDDPA, RCOSC, RCOSC32
      if trim_target = stored_target then (ERROR_NO_ERROR, stored_trim)
      else if trim_target = (stored_target &&& 0x00FF) then
        (ERROR_NO_ERROR, stored_trim &&& 0x00FF)
      else if trim_target = ((stored_target &&& 0xFF00) >>> 8) then
        (ERROR_NO_ERROR, (stored_trim &&& 0xFF00) >>> 8)
      else Sys_Trim_GetTrim_loop rest trim_target 0xFFFF ERROR_NO_TRIM_FOUND
    else if (stored_trim &&& 0xFF00) = 0 ∧ ret1 = ERROR_NO_ERROR then
      -- 8-bit target, 8-bit trim: VDDRF, VDDIF or VDDFLASH
      if trim_target = stored_target then (ERROR_NO_ERROR, stored_trim &&& 0xFF)
      else Sys_Trim_GetTrim_loop rest trim_target 0xFFFF ERROR_NO_TRIM_FOUND
    else
      -- 8-bit target, 16-bit trim: bandgap or DCDC
      if trim_target = (stored_target &&& 0xFF) then (ERROR_NO_ERROR, stored_trim)
      else Sys_Trim_GetTrim_loop rest trim_target 0xFFFF ERROR_NO_TRIM_FOUND

/-- `Sys_Trim_GetTrim`: linear scan of a packed trim table.  `addr = none` and
`trim_val = none` model NULL pointers; the returned `Option Nat` is the final
content of the cell `trim_val` points to.  `ret_uninit` models the
indeterminate value of the local `ret_val` returned by the C code when
`record_length` is zero. -/
def Sys_Trim_GetTrim (addr : Option (List Nat)) (trim_target : Nat)
    (trim_val : Option Nat) (ret_uninit : Nat) : Nat × Option Nat :=
  match addr, trim_val with
  | some words, some cell =>
    let r := Sys_Trim_GetTrim_loop words trim_target cell ret_uninit
    (r.1, some r.2)
  | _, _ => (ERROR_NULL, trim_val)

/-! ## Sys_Trim_CheckCRC (trim.c lines 396-447)

The source assigns `ERROR_NULL` on a NULL region but does not return early; it
then dereferences the region unconditionally and overwrites `ret_val`, so the
NULL case never reaches the caller and the function is modelled on non-null
regions only. -/

def Sys_Trim_CheckCRC (r : TRIM_Type) : Nat :=
  -- work-around for early chips: 16-bit stored checksums select CRC-CCITT
  let final := if r.CHECKSUM ≤ MAX_16_BIT then crcCCITTWords r.covered
               else crc32Words r.covered
  if r.CHECKSUM = final then ERROR_NO_ERROR else ERROR_INVALID_CRC

/-- The CRC check as worded by the specification: select the engine by whether
the stored checksum fits in 16 bits, accumulate over the whole covered range,
succeed exactly on equality. -/
def checkCRC_spec (r : TRIM_Type) : Nat :=
  let engine := if r.CHECKSUM ≤ MAX_16_BIT then crcCCITTWords else crc32Words
  if engine r.covered = r.CHECKSUM then ERROR_NO_ERROR else ERROR_INVALID_CRC

/-! ## Sys_Trim_VerifyTrims (trim.c lines 203-394) -/

/-- 16-bit sentinel test (all-zero or all-one bits). -/
def sentinel16 (x : Nat) : Bool := x = MIN_16_BIT ∨ x = MAX_16_BIT

/-- 8-bit sentinel test. -/
def sentinel8 (x : Nat) : Bool := x = MIN_8_BIT ∨ x = MAX_8_BIT

/-- Clear one error flag inside a 32-bit accumulator (`ret_val &= ~bit`). -/
def clear32 (bit x : Nat) : Nat := x &&& (0xFFFFFFFF ^^^ bit)

/-- `ret_val` effect of one domain check inside the `i < 4` verification loop:
if no valid record was found yet, a sentinel target sets the domain flag and a
valid target clears it. -/
def checkOneRet (sentinel : Bool) (bit : Nat) (found : Bool) (ret : Nat) : Nat :=
  if found then ret
  else if sentinel then ret ||| bit
  else clear32 bit ret

/-- `valid_found` effect of one domain check. -/
def checkOneFound (sentinel found : Bool) : Bool :=
  if found then found
  else if sentinel then found
  else true

/-- State of the `i < 4` voltage-trim verification loop. -/
structure VerifyVoltState where
  ret : Nat
  bg : Bool
  dcdc : Bool
  vddc : Bool
  vddm : Bool
  vddrf : Bool
  vddpa : Bool

/-- One iteration of the voltage-trim verification loop, checking the six
voltage domains in source order. -/
def verifyVoltageStep (r : TRIM_Type) (i : Nat) (s : VerifyVoltState) : VerifyVoltState :=
  let s := { s with ret := checkOneRet (sentinel16 (r.bandgap i).target) ERROR_BG_INVALID s.bg s.ret,
                    bg := checkOneFound (sentinel16 (r.bandgap i).target) s.bg }
  let s := { s with ret := checkOneRet (sentinel16 (r.dcdc i).target) ERROR_DCDC_INVALID s.dcdc s.ret,
                    dcdc := checkOneFound (sentinel16 (r.dcdc i).target) s.dcdc }
  let s := { s with ret := checkOneRet (sentinel8 (r.vddc i).target_voltage) ERROR_VDDC_INVALID s.vddc s.ret,
                    vddc := checkOneFound (sentinel8 (r.vddc i).target_voltage) s.vddc }
  let s := { s with ret := checkOneRet (sentinel8 (r.vddm i).target_voltage) ERROR_VDDM_INVALID s.vddm s.ret,
                    vddm := checkOneFound (sentinel8 (r.vddm i).target_voltage) s.vddm }
  let s := { s with ret := checkOneRet (sentinel16 (r.vddrf i).trim) ERROR_VDDRF_INVALID s.vddrf s.ret,
                    vddrf := checkOneFound (sentinel16 (r.vddrf i).trim) s.vddrf }
  let s := { s with ret := checkOneRet (sentinel8 (r.vddpa i).target_voltage) ERROR_VDDPA_INVALID s.vddpa s.ret,
                    vddpa := checkOneFound (sentinel8 (r.vddpa i).target_voltage) s.vddpa }
  s

/-- `Sys_Trim_VerifyTrims`: CRC check, then the six redundant voltage domains
over 4 records each, then the single-record domains. -/
def Sys_Trim_VerifyTrims (trim_region : Option TRIM_Type) : Nat :=
  match trim_region with
  | none => ERROR_NULL
  | some r =>
    let ret := if Sys_Trim_CheckCRC r ≠ ERROR_NO_ERROR then
                 ERROR_NO_ERROR ||| ERROR_INVALID_CRC
               else ERROR_NO_ERROR
    let s := (List.range 4).foldl (fun s i => verifyVoltageStep r i s)
               ⟨ret, false, false, false, false, false, false⟩
    let ret := s.ret
    let ret := if sentinel16 (r.vddif 0).target then ret ||| ERROR_VDDIF_INVALID else ret
    let ret := if sentinel16 (r.vddflash 0).target then ret ||| ERROR_VDDFLASH_INVALID else ret
    let ret := (List.range TRIM_RC_RECORDS).foldl
                 (fun ret i => if sentinel16 (r.rcosc (i * 2)).target then
                                 ret ||| ERROR_RCOSC_INVALID
                               else ret) ret
    let ret := if sentinel16 (r.rcosc32 0).target then ret ||| ERROR_RCOSC32_INVALID else ret
    let ret := if sentinel16 r.lsad_trim.hf_offset then ret ||| ERROR_LSAD_INVALID else ret
    let ret := if r.lsad_trim.hf_gain = MIN_32_BIT ∨ r.lsad_trim.lf_gain = MAX_32_BIT then
                 ret ||| ERROR_LSAD_INVALID
               else ret
    let ret := if r.temp_sensor.offset = MIN_32_BIT ∨ r.temp_sensor.offset = MAX_32_BIT then
                 ret ||| ERROR_TEMPERATURE_INVALID
               else ret
    let ret := if sentinel16 (r.thermistor 0).bias then ret ||| ERROR_THERMISTOR_INVALID else ret
    let ret := if sentinel16 r.measured.temp_sensor_30C ∨
                  sentinel16 r.measured.bandgap_vref_0_75V ∨
                  sentinel16 r.measured.lsad_vref_1_0V_internal ∨
                  sentinel16 r.measured.wedac_600mV then
                 ret ||| ERROR_MEASURED_INVALID
               else ret
    ret

/-! ## Trim-loader hardware state

Modelled from the spec: ACS register layout (bit positions, byte lanes) comes
from the external register file; the registers are modelled at the
granularity the loaders access them. -/

/-- Modelled from the spec: `ACS_BG_CTRL_ITRIM_Pos` of the external register
file, consistent with the byte masks applied in `Sys_Trim_LoadBandgap`. -/
def ACS_BG_CTRL_ITRIM_Pos : Nat := 16

/-- Modelled from the spec: VTRIM field mask of `ACS->VCC_CTRL` (external
register file), one byte wide. -/
def ACS_VCC_CTRL_VTRIM_Mask : Nat := 0xFF

/-- Modelled from the spec: buck-enable bit of `ACS->VCC_CTRL` (external
register file). -/
def VCC_BUCK : Nat := 1 <<< 30

/-- `ACS_VDDC_CTRL` / `ACS_VDDM_CTRL`: normal and standby VTRIM bytes plus the
remaining register bits. -/
structure DualTrimCtrl where
  vtrim : Nat
  standby_vtrim : Nat
  rest : Nat
deriving DecidableEq

/-- The ACS registers written by the trim loaders. -/
structure TrimHW where
  bg_ctrl : Nat
  vcc_ctrl : Nat
  vddc_ctrl : DualTrimCtrl
  vddm_ctrl : DualTrimCtrl
  vddrf_vtrim : Nat
  vddpa_vtrim : Nat
  vddif_vtrim : Nat
  vddflash_vtrim : Nat
  rcosc_ctrl : Nat
  temp_curr_cfg : Nat
deriving DecidableEq

/-! ## Per-domain loaders (trim.c lines 587-1130, trim_vddif.c) -/

/-- `Sys_Trim_LoadBandgap_private` (trim.c lines 603-696). -/
def Sys_Trim_LoadBandgap_private (trim_values : Option TRIM_Type)
    (target_v target_i : Nat) (hw : TrimHW) : Nat × TrimHW :=
  match trim_values with
  | none => (ERROR_NULL, hw)
  | some r =>
    let gv := Sys_Trim_GetTrim (some (fieldWords r.bandgap pairWord TRIM_RECORDS))
                target_v (some 0) 0
    let ret := if gv.1 ≠ 0 then ERROR_NO_ERROR ||| ERROR_BG_V_INVALID else ERROR_NO_ERROR
    let gi := Sys_Trim_GetTrim (some (fieldWords r.bandgap_current pairWord TRIM_RECORDS))
                target_i (some 0) 0
    let ret := if gi.1 ≠ 0 then ret ||| ERROR_BG_I_INVALID else ret
    let trim_voltage := gv.2.getD 0
    let trim_current := gi.2.getD 0
    if ret = ERROR_NO_ERROR then
      -- both trims valid: write voltage and current fields
      let bg := if r.CHECKSUM ≤ MAX_16_BIT then
                  ((trim_current <<< ACS_BG_CTRL_ITRIM_Pos) &&& 0xFF000000) |||
                    ((trim_current <<< (ACS_BG_CTRL_ITRIM_Pos - 2)) &&& 0x00FF0000) |||
                    (trim_voltage &&& 0x0000FF00) ||| ((trim_voltage >>> 2) &&& 0x000000FF)
                else
                  ((trim_current <<< ACS_BG_CTRL_ITRIM_Pos) &&& 0xFFFF0000) |||
                    (trim_voltage &&& 0x0000FFFF)
      (ret, { hw with bg_ctrl := bg })
    else if ret &&& ERROR_BG_I_INVALID = 0 then
      -- only the current trim is valid
      let bg := if r.CHECKSUM ≤ MAX_16_BIT then
                  (hw.bg_ctrl &&& 0x0000FFFF) |||
                    ((trim_current <<< ACS_BG_CTRL_ITRIM_Pos) &&& 0xFF000000) |||
                    ((trim_current <<< (ACS_BG_CTRL_ITRIM_Pos - 2)) &&& 0x00FF0000)
                else
                  (hw.bg_ctrl &&& 0x0000FFFF) |||
                    ((trim_current <<< ACS_BG_CTRL_ITRIM_Pos) &&& 0xFFFF0000)
      (ret, { hw with bg_ctrl := bg })
    else if ret &&& ERROR_BG_V_INVALID = 0 then
      -- only the voltage trim is valid
      let bg := if r.CHECKSUM ≤ MAX_16_BIT then
                  (hw.bg_ctrl &&& 0xFFFF0000) ||| (trim_voltage &&& 0x0000FF00) |||
                    ((trim_voltage >>> 2) &&& 0x000000FF)
                else
                  (hw.bg_ctrl &&& 0xFFFF0000) ||| (trim_voltage &&& 0x0000FFFF)
      (ret, { hw with bg_ctrl := bg })
    else
      (ret, hw)

/-- `Sys_Trim_LoadBandgap` (trim.c lines 587-601). -/
def Sys_Trim_LoadBandgap (trim_values : Option TRIM_Type) (target_v target_i : Nat)
    (hw : TrimHW) : Nat × TrimHW :=
  match trim_values with
  | none => (ERROR_NULL, hw)
  | some r => Sys_Trim_LoadBandgap_private (some r) target_v target_i hw

/-- `Sys_Trim_LoadDCDC_private` (trim.c lines 714-746). -/
def Sys_Trim_LoadDCDC_private (trim_values : Option TRIM_Type) (target : Nat)
    (hw : TrimHW) : Nat × TrimHW :=
  match trim_values with
  | none => (ERROR_NULL, hw)
  | some r =>
    let reg_contents := hw.vcc_ctrl &&& (0xFFFFFFFF ^^^ ACS_VCC_CTRL_VTRIM_Mask)
    let g := Sys_Trim_GetTrim (some (fieldWords r.dcdc pairWord TRIM_RECORDS))
               target (some 0) 0
    let trim := g.2.getD 0
    if g.1 = ERROR_NO_ERROR then
      -- select the BUCK or LDO byte of the packed trim value
      let v := if hw.vcc_ctrl &&& VCC_BUCK ≠ 0 then (trim &&& 0xFF00) >>> 8 else trim &&& 0x00FF
      (g.1, { hw with vcc_ctrl := v ||| reg_contents })
    else
      (g.1 ||| ERROR_DCDC_INVALID, hw)

/-- `Sys_Trim_LoadDCDC` (trim.c lines 698-712). -/
def Sys_Trim_LoadDCDC (trim_values : Option TRIM_Type) (target : Nat)
    (hw : TrimHW) : Nat × TrimHW :=
  match trim_values with
  | none => (ERROR_NULL, hw)
  | some r => Sys_Trim_LoadDCDC_private (some r) target hw

/-- `Sys_Trim_LoadVDDC_private` (trim.c lines 764-810): the normal and standby
lookups are applied independently. -/
def Sys_Trim_LoadVDDC_private (trim_values : Option TRIM_Type)
    (target target_standby : Nat) (hw : TrimHW) : Nat × TrimHW :=
  match trim_values with
  | none => (ERROR_NULL, hw)
  | some r =>
    let g1 := Sys_Trim_GetTrim (some (fieldWords r.vddc byteRecordWord TRIM_RECORDS))
                target (some 0) 0
    let ret := if g1.1 ≠ 0 then ERROR_NO_ERROR ||| ERROR_VDDC_INVALID else ERROR_NO_ERROR
    let g2 := Sys_Trim_GetTrim (some (fieldWords r.vddc byteRecordWord TRIM_RECORDS))
                target_standby (some 0) 0
    let ret := if g2.1 ≠ 0 then ret ||| ERROR_VDDC_STBY_INVALID else ret
    let trim := g1.2.getD 0
    let standby_trim := g2.2.getD 0
    let hw := if ret &&& ERROR_VDDC_INVALID = 0 then
                { hw with vddc_ctrl := { hw.vddc_ctrl with vtrim := trim &&& TRIM_8_BIT_TRIM_MASK } }
              else hw
    let hw := if ret &&& ERROR_VDDC_STBY_INVALID = 0 then
                { hw with vddc_ctrl :=
                    { hw.vddc_ctrl with standby_vtrim := standby_trim &&& TRIM_8_BIT_TRIM_MASK } }
              else hw
    (ret, hw)

/-- `Sys_Trim_LoadVDDC` (trim.c lines 748-762). -/
def Sys_Trim_LoadVDDC (trim_values : Option TRIM_Type) (target target_standby : Nat)
    (hw : TrimHW) : Nat × TrimHW :=
  match trim_values with
  | none => (ERROR_NULL, hw)
  | some r => Sys_Trim_LoadVDDC_private (some r) target target_standby hw

/-- `Sys_Trim_LoadVDDM_private` (trim.c lines 828-874). -/
def Sys_Trim_LoadVDDM_private (trim_values : Option TRIM_Type)
    (target target_standby : Nat) (hw : TrimHW) : Nat × TrimHW :=
  match trim_values with
  | none => (ERROR_NULL, hw)
  | some r =>
    let g1 := Sys_Trim_GetTrim (some (fieldWords r.vddm byteRecordWord TRIM_RECORDS))
                target (some 0) 0
    let ret := if g1.1 ≠ 0 then ERROR_NO_ERROR ||| ERROR_VDDM_INVALID else ERROR_NO_ERROR
    let g2 := Sys_Trim_GetTrim (some (fieldWords r.vddm byteRecordWord TRIM_RECORDS))
                target_standby (some 0) 0
    let ret := if g2.1 ≠ 0 then ret ||| ERROR_VDDM_STBY_INVALID else ret
    let trim := g1.2.getD 0
    let standby_trim := g2.2.getD 0
    let hw := if ret &&& ERROR_VDDM_INVALID = 0 then
                { hw with vddm_ctrl := { hw.vddm_ctrl with vtrim := trim &&& TRIM_8_BIT_TRIM_MASK } }
              else hw
    let hw := if ret &&& ERROR_VDDM_STBY_INVALID = 0 then
                { hw with vddm_ctrl :=
                    { hw.vddm_ctrl with standby_vtrim := standby_trim &&& TRIM_8_BIT_TRIM_MASK } }
              else hw
    (ret, hw)

/-- `Sys_Trim_LoadVDDM` (trim.c lines 812-826). -/
def Sys_Trim_LoadVDDM (trim_values : Option TRIM_Type) (target target_standby : Nat)
    (hw : TrimHW) : Nat × TrimHW :=
  match trim_values with
  | none => (ERROR_NULL, hw)
  | some r => Sys_Trim_LoadVDDM_private (some r) target target_standby hw

/-- `Sys_Trim_LoadVDDPA_private` (trim.c lines 892-924). -/
def Sys_Trim_LoadVDDPA_private (trim_values : Option TRIM_Type) (target : Nat)
    (hw : TrimHW) : Nat × TrimHW :=
  match trim_values with
  | none => (ERROR_NULL, hw)
  | some r =>
    let g := Sys_Trim_GetTrim (some (fieldWords r.vddpa byteRecordWord TRIM_RECORDS))
               target (some 0) 0
    let ret := if g.1 ≠ 0 then ERROR_NO_ERROR ||| ERROR_VDDPA_INVALID else ERROR_NO_ERROR
    if ret = ERROR_NO_ERROR then
      -- the 16-bit local is narrowed into the VTRIM byte
      (ret, { hw with vddpa_vtrim := g.2.getD 0 % 2 ^ 8 })
    else
      (ret ||| ERROR_NO_TRIM_FOUND, hw)

/-- `Sys_Trim_LoadVDDPA` (trim.c lines 876-890). -/
def Sys_Trim_LoadVDDPA (trim_values : Option TRIM_Type) (target : Nat)
    (hw : TrimHW) : Nat × TrimHW :=
  match trim_values with
  | none => (ERROR_NULL, hw)
  | some r => Sys_Trim_LoadVDDPA_private (some r) target hw

/-- `Sys_Trim_LoadVDDRF_private` (trim.c lines 942-965). -/
def Sys_Trim_LoadVDDRF_private (trim_values : Option TRIM_Type) (target : Nat)
    (hw : TrimHW) : Nat × TrimHW :=
  match trim_values with
  | none => (ERROR_NULL, hw)
  | some r =>
    let g := Sys_Trim_GetTrim (some (fieldWords r.vddrf pairWord TRIM_RECORDS))
               target (some 0) 0
    if g.1 = ERROR_NO_ERROR then
      (g.1, { hw with vddrf_vtrim := g.2.getD 0 &&& TRIM_8_BIT_TRIM_MASK })
    else
      (g.1, hw)

/-- `Sys_Trim_LoadVDDRF` (trim.c lines 926-940). -/
def Sys_Trim_LoadVDDRF (trim_values : Option TRIM_Type) (target : Nat)
    (hw : TrimHW) : Nat × TrimHW :=
  match trim_values with
  | none => (ERROR_NULL, hw)
  | some r => Sys_Trim_LoadVDDRF_private (some r) target hw

/-- `Sys_Trim_LoadVDDIF_private` (trim_vddif.c lines 40-64, the non-RSL15
variant that exists in the repository). -/
def Sys_Trim_LoadVDDIF_private (trim_values : Option TRIM_Type) (target : Nat)
    (hw : TrimHW) : Nat × TrimHW :=
  match trim_values with
  | none => (ERROR_NULL, hw)
  | some r =>
    let g := Sys_Trim_GetTrim (some (fieldWords r.vddif pairWord TRIM_RECORDS))
               target (some 0) 0
    if g.1 = ERROR_NO_ERROR then
      (g.1, { hw with vddif_vtrim := g.2.getD 0 &&& TRIM_8_BIT_TRIM_MASK })
    else
      (g.1, hw)

/-- `Sys_Trim_LoadVDDIF` (trim_vddif.c lines 24-38). -/
def Sys_Trim_LoadVDDIF (trim_values : Option TRIM_Type) (target : Nat)
    (hw : TrimHW) : Nat × TrimHW :=
  match trim_values with
  | none => (ERROR_NULL, hw)
  | some r => Sys_Trim_LoadVDDIF_private (some r) target hw

/-- `Sys_Trim_LoadVDDFLASH_private` (trim.c lines 983-1006). -/
def Sys_Trim_LoadVDDFLASH_private (trim_values : Option TRIM_Type) (target : Nat)
    (hw : TrimHW) : Nat × TrimHW :=
  match trim_values with
  | none => (ERROR_NULL, hw)
  | some r =>
    let g := Sys_Trim_GetTrim (some (fieldWords r.vddflash pairWord TRIM_RECORDS))
               target (some 0) 0
    if g.1 = ERROR_NO_ERROR then
      (g.1, { hw with vddflash_vtrim := g.2.getD 0 &&& TRIM_8_BIT_TRIM_MASK })
    else
      (g.1, hw)

/-- `Sys_Trim_LoadVDDFLASH` (trim.c lines 967-981). -/
def Sys_Trim_LoadVDDFLASH (trim_values : Option TRIM_Type) (target : Nat)
    (hw : TrimHW) : Nat × TrimHW :=
  match trim_values with
  | none => (ERROR_NULL, hw)
  | some r => Sys_Trim_LoadVDDFLASH_private (some r) target hw

/-- `Sys_Trim_LoadRCOSC_private` (trim.c lines 1024-1046).  The source passes
`TRIM_RC_RECORDS * 4` as record count, scanning past the RC record array into
the adjacent region words; the function-array model carries those neighbouring
words as further indices of `rcosc`. -/
def Sys_Trim_LoadRCOSC_private (trim_values : Option TRIM_Type) (target : Nat)
    (hw : TrimHW) : Nat × TrimHW :=
  match trim_values with
  | none => (ERROR_NULL, hw)
  | some r =>
    let g := Sys_Trim_GetTrim (some (fieldWords r.rcosc pairWord (TRIM_RC_RECORDS * 4)))
               target (some 0) 0
    if g.1 = ERROR_NO_ERROR then
      -- RC_FTRIM byte of ACS->RCOSC_CTRL (byte lane from the external register file)
      (g.1, { hw with rcosc_ctrl := (hw.rcosc_ctrl &&& 0xFFFFFF00) |||
                        (g.2.getD 0 &&& TRIM_8_BIT_TRIM_MASK) })
    else
      (g.1, hw)

/-- `Sys_Trim_LoadRCOSC` (trim.c lines 1008-1022). -/
def Sys_Trim_LoadRCOSC (trim_values : Option TRIM_Type) (target : Nat)
    (hw : TrimHW) : Nat × TrimHW :=
  match trim_values with
  | none => (ERROR_NULL, hw)
  | some r => Sys_Trim_LoadRCOSC_private (some r) target hw

/-- `Sys_Trim_LoadRCOSC32_private` (trim.c lines 1064-1088). -/
def Sys_Trim_LoadRCOSC32_private (trim_values : Option TRIM_Type) (target : Nat)
    (hw : TrimHW) : Nat × TrimHW :=
  match trim_values with
  | none => (ERROR_NULL, hw)
  | some r =>
    let reg_contents := hw.rcosc_ctrl &&& 0xFFFFFF00
    let g := Sys_Trim_GetTrim (some (fieldWords r.rcosc32 pairWord TRIM_RECORDS))
               target (some 0) 0
    if g.1 = ERROR_NO_ERROR then
      (g.1, { hw with rcosc_ctrl := g.2.getD 0 ||| reg_contents })
    else
      (g.1, hw)

/-- `Sys_Trim_LoadRCOSC32` (trim.c lines 1048-1062). -/
def Sys_Trim_LoadRCOSC32 (trim_values : Option TRIM_Type) (target : Nat)
    (hw : TrimHW) : Nat × TrimHW :=
  match trim_values with
  | none => (ERROR_NULL, hw)
  | some r => Sys_Trim_LoadRCOSC32_private (some r) target hw

/-- `Sys_Trim_LoadThermistor_private` (trim.c lines 1106-1130). -/
def Sys_Trim_LoadThermistor_private (trim_values : Option TRIM_Type) (target : Nat)
    (hw : TrimHW) : Nat × TrimHW :=
  match trim_values with
  | none => (ERROR_NULL, hw)
  | some r =>
    let reg_contents := hw.temp_curr_cfg &&& 0xFF
    let g := Sys_Trim_GetTrim (some (fieldWords r.thermistor thermistorWord TRIM_THERMISTOR_RECORDS))
               target (some 0) 0
    if g.1 = ERROR_NO_ERROR then
      (g.1, { hw with temp_curr_cfg := (g.2.getD 0 <<< 8) ||| reg_contents })
    else
      (g.1, hw)

/-- `Sys_Trim_LoadThermistor` (trim.c lines 1090-1104). -/
def Sys_Trim_LoadThermistor (trim_values : Option TRIM_Type) (target : Nat)
    (hw : TrimHW) : Nat × TrimHW :=
  match trim_values with
  | none => (ERROR_NULL, hw)
  | some r => Sys_Trim_LoadThermistor_private (some r) target hw

/-- `Sys_Trim_LoadTrims` (trim.c lines 90-117): verify, then run every
two-argument loader and every one-argument loader in the fixed array order,
OR-ing all error masks. -/
def Sys_Trim_LoadTrims (trim_region : Option TRIM_Type)
    (targets_1 : Nat → Nat) (targets_2 : Nat → Nat × Nat) (hw : TrimHW) : Nat × TrimHW :=
  match trim_region with
  | none => (ERROR_NULL, hw)
  | some r =>
    let ret := Sys_Trim_VerifyTrims (some r)
    -- two-argument loaders: bandgap, VDDC, VDDM
    let s := Sys_Trim_LoadBandgap_private (some r) (targets_2 0).1 (targets_2 0).2 hw
    let ret := ret ||| s.1
    let s := Sys_Trim_LoadVDDC_private (some r) (targets_2 1).1 (targets_2 1).2 s.2
    let ret := ret ||| s.1
    let s := Sys_Trim_LoadVDDM_private (some r) (targets_2 2).1 (targets_2 2).2 s.2
    let ret := ret ||| s.1
    -- one-argument loaders: DCDC, VDDRF, VDDPA, VDDIF, VDDFLASH, RCOSC, RCOSC32
    let s := Sys_Trim_LoadDCDC_private (some r) (targets_1 0) s.2
    let ret := ret ||| s.1
    let s := Sys_Trim_LoadVDDRF_private (some r) (targets_1 1) s.2
    let ret := ret ||| s.1
    let s := Sys_Trim_LoadVDDPA_private (some r) (targets_1 2) s.2
    let ret := ret ||| s.1
    let s := Sys_Trim_LoadVDDIF (some r) (targets_1 3) s.2
    let ret := ret ||| s.1
    let s := Sys_Trim_LoadVDDFLASH_private (some r) (targets_1 4) s.2
    let ret := ret ||| s.1
    let s := Sys_Trim_LoadRCOSC_private (some r) (targets_1 5) s.2
    let ret := ret ||| s.1
    let s := Sys_Trim_LoadRCOSC32_private (some r) (targets_1 6) s.2
    let ret := ret ||| s.1
    (ret, s.2)

/-! ## Constants from include/rffe.h -/

def MAX_LSAD_CHANNEL : Nat := 7
def VCC_VDDRF_MARGIN : Int := 50
def MV_PER_DBM_VDDRF : Int := 75
def STEPS_PER_DBM_VDDRF : Int := 6
def STEPS_PER_DBM_VDDPA : Int := 10
def RF_MAX_POWER : Int := 6
def RF_MAX_POWER_NO_VDDPA : Int := 2
def RF_NO_VDDPA_TYPICAL_POWER : Int := 0
def RF_MIN_POWER : Int := -17
def PA_PWR_BYTE_0DBM : Nat := 0x0C
def PA_ENABLE_BIAS_SETTING : Nat := 0xF3
def PA_DISABLE_BIAS_SETTING : Nat := 0x73
def SW_CTRL_DELAY_3_BYTE : Nat := 0x2
def RAMPUP_DELAY_3_BYTE : Nat := 0x2
def DISABLE_DELAY_3_BYTE : Nat := 0x2
def TARGET_VDDRF_1070 : Int := 107
def ERRNO_TX_POWER_MARKER : Nat := 0x30
def ERRNO_NO_TRIMS : Nat := 0x01 ||| ERRNO_TX_POWER_MARKER
def ERRNO_RFFE_MISSINGSETTING_ERROR : Nat := 0x02 ||| ERRNO_TX_POWER_MARKER
def ERRNO_RFFE_INVALIDSETTING_ERROR : Nat := 0x03 ||| ERRNO_TX_POWER_MARKER
def ERRNO_RFFE_VCC_INSUFFICIENT : Nat := 0x04 ||| ERRNO_TX_POWER_MARKER

/-! ## RF front-end hardware state

Modelled from the spec: the SYSCTRL / ACS / LSAD / RF register layout is part
of the external register file; registers are modelled at the granularity
`rffe.c` accesses them.  `ACS->VDDPA_CTRL` is written with whole-register
values assembled from named flag constants, modelled as a structure. -/

/-- Modelled from the spec: `DYNAMIC_CTRL_DISABLE/ENABLE_BYTE` values of
`SYSCTRL->VDDPA_CFG0` from the external register file. -/
def DYNAMIC_CTRL_DISABLE_BYTE : Nat := 0

/-- Modelled from the spec: dynamic-VDDPA enable byte value. -/
def DYNAMIC_CTRL_ENABLE_BYTE : Nat := 1

/-- Modelled from the spec: `VDDPA_INITIAL_TRIM_1P10V` field value of
`ACS->VDDPA_CTRL`. -/
def VDDPA_INITIAL_TRIM_1P10V : Nat := 110

/-- The VDDPA source-switch field of `ACS->VDDPA_CTRL`. -/
inductive VddpaSw where
  | swVddrf
  | swHiZ
deriving DecidableEq

/-- `ACS->VDDPA_CTRL` as written by `rffe.c`. -/
structure VddpaCtrl where
  initial_trim : Nat
  sw : VddpaSw
  isense_enabled : Bool
  enabled : Bool
  vtrim : Nat
deriving DecidableEq

/-- Modelled from the spec: the LSAD configuration value used while measuring
through AOUT (`LSAD_NORMAL | LSAD_PRESCALE_200 | VBAT_DIV2_ENABLE`). -/
def LSAD_CFG_MEASUREMENT : Nat := 0x201

/-- Modelled from the spec: `LSAD_POS_INPUT_AOUT | LSAD_NEG_INPUT_GND`. -/
def LSAD_INPUT_SEL_AOUT_GND : Nat := 0x47

/-- Modelled from the spec: AOUT_CTRL field masks and values used by
`rffe.c` (`TEST_AOUT` and `AOUT_TO_GPIO` masks, routing and source values). -/
def ACS_AOUT_CTRL_CLEAR_Mask : Nat := 0xFFFF
def AOUT_NOT_CONNECTED_TO_GPIO : Nat := 0x10000
def SEL_AOUT_TO_GPIO : Nat := 0x20000
def AOUT_VCC : Nat := 0x40000
def AOUT_VDDRF : Nat := 0x80000

/-- The registers touched by the RF front-end TX-power functions. -/
structure RffeHW where
  lsad_cfg : Nat
  lsad_input_sel : Nat → Nat
  aout_ctrl : Nat
  vddpa_ctrl : VddpaCtrl
  vddpa_dynamic_ctrl : Nat
  vddpa_sw_ctrl_delay : Nat
  vddpa_rampup_delay : Nat
  vddpa_disable_delay : Nat
  vddrf_vtrim : Nat
  pa_bias : Nat
  pa_pwr : Nat

/-- ARM float-to-`uint8_t` conversion used for `(uint8_t)(upper_trim / 3)`
(out-of-range conversion is undefined in C; the hardware conversion
saturates negative values to zero). -/
def floatToByte (i : Int) : Nat := if i < 0 then 0 else i.toNat % 2 ^ 8

/-- `Sys_RFFE_SetTXPower_NoVDDPA` (rffe.c lines 185-325).  `measuredVCC` is
the value returned by `Sys_RFFE_MeasureSupply` for the VCC rail: the
measurement path (`MeasureSupply`/`GetMedian`, rffe.c lines 391-449) converts
ADC samples through float gain/offset compensation and is abstracted as an
input.  The float arithmetic of the PA_PWR search is exact on the half-dBm
grid and is carried in exact integer form (`power_error * 6` and
`power_error * 10` are integers). -/
def Sys_RFFE_SetTXPower_NoVDDPA (trims : TRIM_Type) (target : Int)
    (lsad_channel : Nat) (measuredVCC : Nat) (hw : RffeHW) : Nat × RffeHW :=
  -- save LSAD and AOUT states
  let lsad_bk := hw.lsad_input_sel lsad_channel
  let aout_bk := hw.aout_ctrl
  let lsad_cfg_bk := hw.lsad_cfg
  let hw := { hw with lsad_cfg := LSAD_CFG_MEASUREMENT }
  let hw := { hw with lsad_input_sel :=
                Function.update hw.lsad_input_sel lsad_channel LSAD_INPUT_SEL_AOUT_GND }
  let hw := { hw with aout_ctrl := (hw.aout_ctrl &&& (0xFFFFFFFF ^^^ ACS_AOUT_CTRL_CLEAR_Mask)) |||
                AOUT_NOT_CONNECTED_TO_GPIO ||| SEL_AOUT_TO_GPIO }
  let (error, pa_pwr_temp, hw) :=
    if target > RF_NO_VDDPA_TYPICAL_POWER then
      -- more than 0 dBm without the power amplifier: measure VCC
      let hw := { hw with aout_ctrl := hw.aout_ctrl ||| AOUT_VCC }
      let vcc := measuredVCC
      -- vcc - VCC_VDDRF_MARGIN in uint32 arithmetic
      let vddrf_max : Nat := (vcc + (2 ^ 32 - 50)) % 2 ^ 32
      if (vddrf_max : Int) < TARGET_VDDRF_1070 * 10 + target * MV_PER_DBM_VDDRF then
        -- VCC too low to support the required VDDRF: change no settings
        (ERRNO_RFFE_VCC_INSUFFICIENT, 0xFF, hw)
      else
        let hw := { hw with vddpa_dynamic_ctrl := DYNAMIC_CTRL_DISABLE_BYTE }
        let hw := { hw with vddpa_ctrl :=
                      { initial_trim := VDDPA_INITIAL_TRIM_1P10V, sw := VddpaSw.swVddrf,
                        isense_enabled := false, enabled := false,
                        vtrim := (trims.vddpa 2).trim_voltage } }
        let hw := { hw with vddrf_vtrim :=
                      ((((trims.vddrf 1).trim : Int) + target * STEPS_PER_DBM_VDDRF).emod (2 ^ 8)).toNat }
        let hw := { hw with pa_bias := PA_DISABLE_BIAS_SETTING }
        (ERROR_NO_ERROR, PA_PWR_BYTE_0DBM, hw)
    else
      let hw := { hw with vddpa_dynamic_ctrl := DYNAMIC_CTRL_DISABLE_BYTE }
      let hw := { hw with vddpa_ctrl :=
                    { initial_trim := VDDPA_INITIAL_TRIM_1P10V, sw := VddpaSw.swVddrf,
                      isense_enabled := false, enabled := false,
                      vtrim := (trims.vddpa 2).trim_voltage } }
      let hw := { hw with vddrf_vtrim := (trims.vddrf 1).trim % 2 ^ 8 }
      -- nearest 1.5 dBm PA_PWR step: (target + 0.5) * 2 and (target - 0.5) * 2
      let upper_trim : Int := 2 * target + 1
      let lower_trim : Int := 2 * target - 1
      let (pa_pwr_temp, hw) :=
        if upper_trim % 3 = 0 then
          let p := ((PA_PWR_BYTE_0DBM : Int) + (floatToByte (Int.tdiv upper_trim 3) : Int)).emod (2 ^ 8)
          -- power_error * STEPS_PER_DBM_VDDRF, exactly
          let delta : Int := 6 * target - 9 * (p - (PA_PWR_BYTE_0DBM : Int))
          (p.toNat, { hw with vddrf_vtrim := (((hw.vddrf_vtrim : Int) + delta).emod (2 ^ 8)).toNat })
        else if lower_trim % 3 = 0 then
          let p := ((PA_PWR_BYTE_0DBM : Int) + Int.tdiv lower_trim 3).emod (2 ^ 8)
          let delta : Int := 6 * target - 9 * (p - (PA_PWR_BYTE_0DBM : Int))
          (p.toNat, { hw with vddrf_vtrim := (((hw.vddrf_vtrim : Int) + delta).emod (2 ^ 8)).toNat })
        else
          ((((PA_PWR_BYTE_0DBM : Int) + Int.tdiv (target * 2) 3).emod (2 ^ 8)).toNat, hw)
      let hw := { hw with pa_bias := PA_DISABLE_BIAS_SETTING }
      (ERROR_NO_ERROR, pa_pwr_temp, hw)
  -- restore ACS_AOUT_CTRL, LSAD_CFG and LSAD_INPUT_SEL
  let hw := { hw with
                lsad_cfg := lsad_cfg_bk, aout_ctrl := aout_bk,
                lsad_input_sel := Function.update hw.lsad_input_sel lsad_channel lsad_bk }
  let hw := if pa_pwr_temp ≠ 0xFF then { hw with pa_pwr := pa_pwr_temp } else hw
  (error, hw)

/-- `Sys_RFFE_SetTXPower_VDDPA` (rffe.c lines 341-387).  The float
compensation `power_error * STEPS_PER_DBM_VDDPA` is exact on the half-dBm grid
and carried in exact integer form. -/
def Sys_RFFE_SetTXPower_VDDPA (trims : TRIM_Type) (target : Int) (hw : RffeHW) :
    Nat × RffeHW :=
  let hw := { hw with vddpa_ctrl :=
                { initial_trim := VDDPA_INITIAL_TRIM_1P10V, sw := VddpaSw.swHiZ,
                  isense_enabled := false, enabled := false,
                  vtrim := (trims.vddpa 2).trim_voltage } }
  let hw := { hw with vddpa_dynamic_ctrl := DYNAMIC_CTRL_ENABLE_BYTE }
  let hw := { hw with vddpa_sw_ctrl_delay := SW_CTRL_DELAY_3_BYTE }
  let hw := { hw with vddpa_rampup_delay := RAMPUP_DELAY_3_BYTE }
  let hw := { hw with vddpa_disable_delay := DISABLE_DELAY_3_BYTE }
  let hw := { hw with pa_bias := PA_ENABLE_BIAS_SETTING }
  -- decrease PA_PWR by 1 for every 1.5 dBm below the 6 dBm maximum
  let p := ((PA_PWR_BYTE_0DBM : Int) + Int.tdiv ((target - RF_MAX_POWER) * 2) 3).emod (2 ^ 8)
  let pa_pwr_temp := p.toNat
  let hw :=
    if target % 3 ≠ 0 then
      -- power_error * STEPS_PER_DBM_VDDPA, exactly
      let delta : Int := 10 * (target - RF_MAX_POWER) - 15 * (p - (PA_PWR_BYTE_0DBM : Int))
      { hw with vddpa_ctrl := { hw.vddpa_ctrl with
          vtrim := (((hw.vddpa_ctrl.vtrim : Int) + delta).emod (2 ^ 8)).toNat } }
    else hw
  let hw := if pa_pwr_temp ≠ 0xFF then { hw with pa_pwr := pa_pwr_temp } else hw
  (ERROR_NO_ERROR, hw)

/-- `Sys_RFFE_SetTXPower` (rffe.c lines 40-87): validate the channel and the
target, then select the No-PA or the PA path; a `VccInsufficient` result from
the No-PA attempt triggers the PA path and the two results are OR-ed. -/
def Sys_RFFE_SetTXPower (trims : TRIM_Type) (target : Int) (lsad_channel : Nat)
    (pa_en : Bool) (measuredVCC : Nat) (hw : RffeHW) : Nat × RffeHW :=
  if lsad_channel > MAX_LSAD_CHANNEL then (ERRNO_RFFE_INVALIDSETTING_ERROR, hw)
  else if target > RF_MAX_POWER ∨ target < RF_MIN_POWER then
    (ERRNO_RFFE_INVALIDSETTING_ERROR, hw)
  else if (¬pa_en ∧ target ≤ RF_MAX_POWER_NO_VDDPA ∧ target > 0) ∨ target ≤ 0 then
    let r := Sys_RFFE_SetTXPower_NoVDDPA trims target lsad_channel measuredVCC hw
    if r.1 = ERRNO_RFFE_VCC_INSUFFICIENT then
      -- VCC was too low, enable VDDPA to achieve the target
      let r2 := Sys_RFFE_SetTXPower_VDDPA trims target r.2
      (r.1 ||| r2.1, r2.2)
    else r
  else
    Sys_RFFE_SetTXPower_VDDPA trims target hw

/-! ## Sys_Clocks_DividerConfig (clock.c lines 30-148)

The divisors and the register enables are modelled as named result fields
(the packing of `CLK->DIV_CFG0/1/2` comes from the external register file).
The sensor-clock divisor follows the RSL15 variant of the source (direct
division); `rf_clk_ready` models the RF digital-clock-ready status read from
`RF0_ANALOG_INFO`, and `ck_div_byte` the RF prescaler byte read from
`RF0_REG33`. -/

/-- The divisors computed by `Sys_Clocks_DividerConfig`. -/
structure ClockDividers where
  slowclk_div : Nat
  bbclk_div : Nat
  uartclk_div : Nat
  dcclk_div : Nat
  sensorclk_div : Nat
  userclk_div : Nat
  userclk_src_rf : Bool
  dcclk_enabled : Bool
deriving DecidableEq

def Sys_Clocks_DividerConfig (SystemCoreClock uartclk_freq sensorclk_freq userclk_freq : Nat)
    (vcc_buck rf_clk_ready : Bool) (ck_div_byte : Nat) : ClockDividers :=
  let slowclk_div := SystemCoreClock / 1000000
  let slowclk_div := if SystemCoreClock % 1000000 = 0 then slowclk_div - 1 else slowclk_div
  let bbclk_div := SystemCoreClock / 8000000
  let bbclk_div := if SystemCoreClock % 8000000 = 0 then bbclk_div - 1 else bbclk_div
  let uartclk_div := SystemCoreClock / uartclk_freq
  let uartclk_div := if SystemCoreClock % uartclk_freq = 0 then uartclk_div - 1 else uartclk_div
  let dcclk_div := SystemCoreClock / 4000000
  let dcclk_div := if SystemCoreClock % 4000000 = 0 then dcclk_div - 1 else dcclk_div
  let sensorclk_div := SystemCoreClock / sensorclk_freq
  let sensorclk_div := if SystemCoreClock % sensorclk_freq = 0 then sensorclk_div - 1
                       else sensorclk_div
  -- USERCLK: RF-derived when the requested frequency exceeds the core clock
  -- and the RF digital clock is ready, otherwise SYSCLK-derived
  let (userclk_div, userclk_src_rf) :=
    if userclk_freq > SystemCoreClock ∧ rf_clk_ready then
      let d := (48000000 / ck_div_byte) / userclk_freq
      (if SystemCoreClock % userclk_freq = 0 then d - 1 else d, true)
    else
      let d := SystemCoreClock / userclk_freq
      (if SystemCoreClock % userclk_freq = 0 then d - 1 else d, false)
  { slowclk_div := slowclk_div, bbclk_div := bbclk_div, uartclk_div := uartclk_div,
    dcclk_div := dcclk_div, sensorclk_div := sensorclk_div,
    userclk_div := userclk_div, userclk_src_rf := userclk_src_rf,
    dcclk_enabled := vcc_buck }

/-- The divisor rule as worded by the specification: the floor of the core
clock over the target frequency, decremented by one only when the division is
exact. -/
def dividerSpec (coreClock targetFreq : Nat) : Nat :=
  if coreClock % targetFreq = 0 then coreClock / targetFreq - 1
  else coreClock / targetFreq

/-! ## Power modes (power_modes.c)

Memory-retention sleep entry and the RAM wake handler.  The linker-provided
addresses (`__stack`, `__Wakeup_addr`, the wakeup section) and `SCB->VTOR` are
carried in an environment structure; the wake configuration block written to
the linker-reserved RAM region is modelled as the list of its eight 32-bit
words. -/

/-- `PWR_SLEEP_MODE` value written to `ACS->PWR_MODES_CTRL`; from the external
register file, modelled from the spec. -/
def PWR_SLEEP_MODE : Nat := 1

/-- `sleep_mode_ret_regulator_cfg` (power_modes.h lines 96-107). -/
structure SleepRetRegulatorCfg where
  vddm_ret_trim : Nat
  vddt_ret : Nat
  vddacs_ret_trim : Nat
  vddc_ret_trim : Nat
deriving DecidableEq

/-- `sleep_mode_cfg` (power_modes.h lines 136-173); function pointers are
modelled as addresses, with 0 (`NULL`) meaning unset. -/
structure SleepModeCfg where
  wakeup_cfg : Nat
  boot_cfg : Nat
  app_gpio_config : Nat
  DMA_channel_RF : Nat
  ble_present : Nat
  vddret_ctrl : SleepRetRegulatorCfg
  app_addr : Nat
deriving DecidableEq

/-- `ACS->VDDRET_CTRL` as assembled by the sleep-entry functions. -/
structure VddretCtrl where
  vddm_ret_trim : Nat
  vddmret_enabled : Bool
  vddacs_ret_trim : Nat
  vddt_ret : Nat
  vddc_ret_trim : Nat
  vddcret_enabled : Bool
deriving DecidableEq

/-- Linker- and core-provided addresses read by the memory-retention path. -/
structure LinkEnv where
  stack : Nat
  vtor : Nat
  wakeup_from_ram_addr : Nat
  wakeup_region_addr : Nat
deriving DecidableEq

/-- The registers and the linker-reserved RAM block written by
`_Sys_PowerModes_Sleep_MemoryRetention`. -/
structure SleepHW where
  vddret_ctrl : VddretCtrl
  wake_block : List Nat
  wakeup_addr : Nat
  boot_gp_data : Nat
  gp_data : Nat
  pwr_modes_ctrl : Nat
  mem_access_cfg : Nat
deriving DecidableEq

/-- `_Sys_PowerModes_CalculateCRC` (power_modes.c lines 855-868): CRC-32 over
the first 7 words of the wake configuration block. -/
def Sys_PowerModes_CalculateCRC (firstSevenWords : List Nat) : Nat :=
  crc32Words firstSevenWords

/-- `_Sys_PowerModes_Sleep_MemoryRetention` (power_modes.c lines 218-255):
enable the retention regulators, write the wake configuration block
(`app_ptr[0..7]`), point `SYSCTRL->WAKEUP_ADDR` at the reserved region, save
the configuration pointer in `ACS->GP_DATA` and request sleep.  `cfg_ptr` is
the numeric value of the `p_sleep_mode_cfg` pointer. -/
def Sys_PowerModes_Sleep_MemoryRetention (env : LinkEnv) (cfg : SleepModeCfg)
    (cfg_ptr : Nat) (hw : SleepHW) : SleepHW :=
  let hw := { hw with vddret_ctrl :=
                { vddm_ret_trim := cfg.vddret_ctrl.vddm_ret_trim,
                  vddmret_enabled := true,
                  vddacs_ret_trim := cfg.vddret_ctrl.vddacs_ret_trim,
                  vddt_ret := cfg.vddret_ctrl.vddt_ret,
                  vddc_ret_trim := cfg.vddret_ctrl.vddc_ret_trim,
                  vddcret_enabled := false } }
  -- app_ptr[0..6]: stack pointer, vector table, wakeup address, reserved zeros
  let firstSeven := [env.stack, env.vtor, env.wakeup_from_ram_addr, 0, 0, 0, 0]
  -- app_ptr[7]: CRC over the seven words already written
  let hw := { hw with wake_block := firstSeven ++ [Sys_PowerModes_CalculateCRC firstSeven] }
  let hw := { hw with wakeup_addr := env.wakeup_region_addr }
  let hw := { hw with boot_gp_data := hw.mem_access_cfg }
  let hw := { hw with gp_data := cfg_ptr }
  { hw with pwr_modes_ctrl := PWR_SLEEP_MODE }

/-- Observable actions of the RAM wake handler, in execution order.  The
terminal `spinForever` action carries the body of the infinite loop. -/
inductive WakeAction where
  | disableIrq
  | readGpData
  | watchdogRefresh
  | enableWakeIrq
  | wakeupInit
  | enableBleIrqs
  | enableIrq
  | isb
  | callApp (addr : Nat)
  | spinForever (body : List WakeAction)

/-- `_Sys_PowerModes_WakeupFromRAM` (power_modes.c lines 289-343) as its trace
of observable actions: disable interrupts, recover the configuration pointer
from `ACS->GP_DATA`, refresh the watchdog, re-enable the wake interrupt, run
the common wake-up initialization, conditionally enable the BLE interrupt
lines, re-enable interrupts, then either tail-call the application return
address or refresh the watchdog once and spin forever with an empty loop
body. -/
def Sys_PowerModes_WakeupFromRAM (cfg : SleepModeCfg) : List WakeAction :=
  [WakeAction.disableIrq, WakeAction.readGpData, WakeAction.watchdogRefresh,
   WakeAction.enableWakeIrq, WakeAction.wakeupInit] ++
  (if cfg.ble_present ≠ 0 then [WakeAction.enableBleIrqs] else []) ++
  [WakeAction.enableIrq, WakeAction.isb] ++
  (if cfg.app_addr ≠ 0 then [WakeAction.callApp cfg.app_addr]
   else [WakeAction.watchdogRefresh, WakeAction.spinForever []])

/-! ## Concrete instances used by witnesses and counterexamples -/

/-- A trim region whose VDDC table holds one valid dual-byte record (normal
target 115 with trim `0x20`, standby target 80 with trim `0x30`) followed by
all-ones sentinel records. -/
def trimR8 : TRIM_Type where
  bandgap := fun _ => ⟨0xFFFF, 0⟩
  bandgap_current := fun _ => ⟨0xFFFF, 0⟩
  dcdc := fun _ => ⟨0xFFFF, 0⟩
  vddc := fun i => if i = 0 then ⟨0x20, 0x30, 115, 80⟩ else ⟨0xFF, 0xFF, 0xFF, 0xFF⟩
  vddm := fun _ => ⟨0xFF, 0xFF, 0xFF, 0xFF⟩
  vddrf := fun i => if i = 1 then ⟨110, 0x24⟩ else ⟨0xFFFF, 0⟩
  vddpa := fun i => if i = 2 then ⟨0x15, 0, 160, 0⟩ else ⟨0xFF, 0xFF, 0xFF, 0xFF⟩
  vddif := fun _ => ⟨0xFFFF, 0⟩
  vddflash := fun _ => ⟨0xFFFF, 0⟩
  rcosc := fun _ => ⟨0xFFFF, 0⟩
  rcosc32 := fun _ => ⟨0xFFFF, 0⟩
  lsad_trim := ⟨0, 0, 0, 0⟩
  temp_sensor := ⟨0⟩
  thermistor := fun _ => ⟨0xFFFF, 0⟩
  measured := ⟨0, 0, 0, 0⟩
  CHECKSUM := 0
  covered := []

/-- A trim region whose RC-oscillator table holds a valid record at index 0
and a sentinel record at index 2 (both checked by the verification loop), and
whose VDDRF records all carry a sentinel target together with a valid trim
value. -/
def trimVerifyCE : TRIM_Type where
  bandgap := fun _ => ⟨100, 7⟩
  bandgap_current := fun _ => ⟨100, 7⟩
  dcdc := fun _ => ⟨120, 9⟩
  vddc := fun _ => ⟨0x20, 0x30, 115, 80⟩
  vddm := fun _ => ⟨0x20, 0x30, 115, 80⟩
  vddrf := fun _ => ⟨0xFFFF, 0x24⟩
  vddpa := fun _ => ⟨0x15, 0, 160, 0⟩
  vddif := fun _ => ⟨180, 3⟩
  vddflash := fun _ => ⟨160, 3⟩
  rcosc := fun i => if i = 0 then ⟨3000, 5⟩ else ⟨0xFFFF, 0⟩
  rcosc32 := fun _ => ⟨32768, 4⟩
  lsad_trim := ⟨5, 6, 7, 8⟩
  temp_sensor := ⟨9⟩
  thermistor := fun _ => ⟨10, 2⟩
  measured := ⟨1, 2, 3, 4⟩
  CHECKSUM := 0
  covered := []

/-- A trim-loader register state whose VDDC normal VTRIM byte already holds
`0x20`, the value `trimR8`'s valid record stores. -/
def trimHW8 : TrimHW where
  bg_ctrl := 0x11223344
  vcc_ctrl := 0x55
  vddc_ctrl := ⟨0x20, 0x44, 0x9⟩
  vddm_ctrl := ⟨0x1, 0x2, 0x3⟩
  vddrf_vtrim := 0x66
  vddpa_vtrim := 0x77
  vddif_vtrim := 0x88
  vddflash_vtrim := 0x99
  rcosc_ctrl := 0xAA
  temp_curr_cfg := 0xBB

/-- An RF front-end register state with dynamic VDDPA enabled and the VDDPA
regulator on, used to observe the No-PA path rewriting them. -/
def rffeHW0 : RffeHW where
  lsad_cfg := 0x5
  lsad_input_sel := fun _ => 0x99
  aout_ctrl := 0x77
  vddpa_ctrl := ⟨105, VddpaSw.swHiZ, true, true, 0x9⟩
  vddpa_dynamic_ctrl := DYNAMIC_CTRL_ENABLE_BYTE
  vddpa_sw_ctrl_delay := 0
  vddpa_rampup_delay := 0
  vddpa_disable_delay := 0
  vddrf_vtrim := 0x33
  pa_bias := 0xF3
  pa_pwr := 0x0B

/-- A sleep configuration with no application return address set. -/
def cfgHang : SleepModeCfg := ⟨0, 0, 0, 0, 0, ⟨1, 1, 2, 3⟩, 0⟩

/-- A sleep configuration with the application return address set. -/
def cfgCall : SleepModeCfg := ⟨0, 0, 0, 0, 1, ⟨1, 1, 2, 3⟩, 0x20001234⟩

/-- Concrete linker environment for the memory-retention counterexample. -/
def linkEnv0 : LinkEnv := ⟨0x20004000, 0x00100000, 0x20000101, 0x20007F00⟩

/-- Concrete pre-sleep register state for the memory-retention claims. -/
def sleepHW0 : SleepHW := ⟨⟨0, false, 0, 0, 0, false⟩, [], 0, 0, 0, 0, 0xAB⟩

/-! # Theorems -/

/-! ## Shared bit-level helper lemmas -/

/-- `x &&& (1 <<< k)` is nonzero exactly when bit `k` of `x` is set. -/
theorem and_shift_ne_zero_iff (x k : Nat) : x &&& (1 <<< k) ≠ 0 ↔ x.testBit k = true := by
  rw [Nat.one_shiftLeft, Nat.and_two_pow]
  rcases h : x.testBit k <;> simp [h]

/-- Bits of the 32-bit all-ones mask. -/
theorem mask32_testBit (p : Nat) : (0xFFFFFFFF : Nat).testBit p = decide (p < 32) := by
  have h : (0xFFFFFFFF : Nat) = 2 ^ 32 - 1 := by norm_num
  rw [h, Nat.testBit_two_pow_sub_one]

/-- Bit `p` of the result of one domain check of the verification loop: at the
domain's own flag position the result is the sentinel status (when no valid
record was seen yet), every other position below 32 is preserved. -/
theorem checkOneRet_testBit (p : Nat) (hp : p < 32) (s found : Bool) (bit ret : Nat) :
    (checkOneRet s bit found ret).testBit p =
      if bit.testBit p then (if found then ret.testBit p else s)
      else ret.testBit p := by
  unfold checkOneRet clear32
  rcases hb : bit.testBit p <;> rcases found <;> rcases s <;>
    simp [hb, Nat.testBit_lor, Nat.testBit_land, Nat.testBit_xor, mask32_testBit, hp]

/-- Bit `p` of a conditional flag OR. -/
theorem testBit_ite_or (c : Prop) [Decidable c] (x bit p : Nat) :
    (if c then x ||| bit else x).testBit p = (x.testBit p || (decide c && bit.testBit p)) := by
  by_cases h : c <;> simp [h, Nat.testBit_lor]

/-! ## Claim C6 -/

/-- C6: evaluation of `Sys_Trim_GetTrim` at the failing inputs.  The claim
(and the code's own sentinel check and `ERROR_INVALID_TRIM` flag) say a
sentinel record yields `ERROR_INVALID_TRIM` and an all-sentinel table yields
`ERROR_NO_TRIM_FOUND` on every lookup; the catch-all decode branch of the scan
loop is not guarded by the sentinel check, so a sentinel word whose target low
byte equals the requested key is returned as a successful match
(`ERROR_NO_ERROR` with value `0xFFFF`), it shadows a genuine later match, and
`ERROR_INVALID_TRIM` is overwritten on every path. -/
theorem GetTrim_sentinel_record_defeats_invalid_trim :
    Sys_Trim_GetTrim (some [0xFFFFFFFF]) 0xFF (some 0) 0 = (ERROR_NO_ERROR, some 0xFFFF) ∧
    Sys_Trim_GetTrim (some [0xFFFFFFFF, pairWord ⟨0xFF, 0x12⟩]) 0xFF (some 0) 0 =
      (ERROR_NO_ERROR, some 0xFFFF) ∧
    Sys_Trim_GetTrim (some [0x00000000]) 0xAB (some 0) 0 =
      (ERROR_NO_TRIM_FOUND, some 0xFFFF) := by
  decide

/-! ## Claim C7 -/

/-- C7: `Sys_Trim_CheckCRC` selects the CRC-CCITT engine when the stored
checksum fits in 16 bits and the CRC-32 engine otherwise, accumulates over the
whole covered record range, and returns `ERROR_NO_ERROR` exactly when the
computed CRC equals the stored checksum, `ERROR_INVALID_CRC` otherwise. -/
theorem CheckCRC_engine_selection_and_compare (r : TRIM_Type) :
    Sys_Trim_CheckCRC r = checkCRC_spec r ∧
    (Sys_Trim_CheckCRC r = ERROR_NO_ERROR ↔
      (if r.CHECKSUM ≤ MAX_16_BIT then crcCCITTWords r.covered
       else crc32Words r.covered) = r.CHECKSUM) ∧
    (Sys_Trim_CheckCRC r ≠ ERROR_NO_ERROR ↔ Sys_Trim_CheckCRC r = ERROR_INVALID_CRC) := by
  have hspec : checkCRC_spec r =
      if (if r.CHECKSUM ≤ MAX_16_BIT then crcCCITTWords r.covered
          else crc32Words r.covered) = r.CHECKSUM
      then ERROR_NO_ERROR else ERROR_INVALID_CRC := by
    unfold checkCRC_spec
    by_cases h16 : r.CHECKSUM ≤ MAX_16_BIT <;> simp [h16]
  have hsrc : Sys_Trim_CheckCRC r =
      if r.CHECKSUM = (if r.CHECKSUM ≤ MAX_16_BIT then crcCCITTWords r.covered
                       else crc32Words r.covered)
      then ERROR_NO_ERROR else ERROR_INVALID_CRC := rfl
  rw [hsrc, hspec]
  generalize (if r.CHECKSUM ≤ MAX_16_BIT then crcCCITTWords r.covered
              else crc32Words r.covered) = E
  by_cases h : r.CHECKSUM = E
  · simp [h, ERROR_NO_ERROR, ERROR_INVALID_CRC]
  · have h' : ¬E = r.CHECKSUM := fun hh => h hh.symm
    simp [h, h', ERROR_NO_ERROR, ERROR_INVALID_CRC]

/-! ## Claim C9 -/

/-- C9 counterexample: with `SystemCoreClock = 8 MHz`, a 24 MHz user-clock
request and the RF clock ready, the USERCLK domain's divisor is computed from
the RF clock (48 MHz / prescaler), not as
`floor(SystemCoreClock / targetFreq)`: the code yields 2 where the claimed
rule gives 0 (and the division is not exact, so no decrement is involved). -/
theorem DividerConfig_userclk_rf_counterexample :
    (Sys_Clocks_DividerConfig 8000000 1000000 1000000 24000000 false true 1).userclk_div = 2 ∧
    dividerSpec 8000000 24000000 = 0 ∧
    (Sys_Clocks_DividerConfig 8000000 1000000 1000000 24000000 false true 1).userclk_div ≠
      dividerSpec 8000000 24000000 := by
  decide

/-- C9 (amended): every divisor that is derived from `SystemCoreClock`
(SLOWCLK, BBCLK, UARTCLK, DCCLK, SENSORCLK, and USERCLK when it is sourced
from SYSCLK) equals `floor(SystemCoreClock / targetFreq)`, decremented by one
only when the division is exact; in particular at 48 MHz a 1 MHz UART target
yields 47 and a 900 kHz UART target yields 53.  USERCLK sourced from the RF
clock (request above the core clock with the RF clock ready) follows the RF
clock instead. -/
theorem DividerConfig_floor_rule (core uart sensor user ck : Nat) (buck rf : Bool) :
    (Sys_Clocks_DividerConfig core uart sensor user buck rf ck).slowclk_div =
      dividerSpec core 1000000 ∧
    (Sys_Clocks_DividerConfig core uart sensor user buck rf ck).bbclk_div =
      dividerSpec core 8000000 ∧
    (Sys_Clocks_DividerConfig core uart sensor user buck rf ck).uartclk_div =
      dividerSpec core uart ∧
    (Sys_Clocks_DividerConfig core uart sensor user buck rf ck).dcclk_div =
      dividerSpec core 4000000 ∧
    (Sys_Clocks_DividerConfig core uart sensor user buck rf ck).sensorclk_div =
      dividerSpec core sensor ∧
    (¬(user > core ∧ rf = true) →
      (Sys_Clocks_DividerConfig core uart sensor user buck rf ck).userclk_div =
        dividerSpec core user ∧
      (Sys_Clocks_DividerConfig core uart sensor user buck rf ck).userclk_src_rf = false) ∧
    (Sys_Clocks_DividerConfig 48000000 1000000 sensor user buck rf ck).uartclk_div = 47 ∧
    (Sys_Clocks_DividerConfig 48000000 900000 sensor user buck rf ck).uartclk_div = 53 := by
  refine ⟨?_, ?_, ?_, ?_, ?_, ?_, ?_, ?_⟩ <;>
    first
      | (intro h
         constructor <;>
           simp [Sys_Clocks_DividerConfig, dividerSpec, h])
      | simp [Sys_Clocks_DividerConfig, dividerSpec]

/-- C9 witness: the SYSCLK-sourced USERCLK case of the floor rule at a
concrete input. -/
theorem DividerConfig_floor_rule_witness :
    (Sys_Clocks_DividerConfig 48000000 1000000 1000000 2000000 false false 1).userclk_div =
      dividerSpec 48000000 2000000 := by
  have h := (DividerConfig_floor_rule 48000000 1000000 1000000 2000000 1 false false).2.2.2.2.2.1
  exact (h (by simp)).1

/-! ## Claim C10 -/

/-- C10: every public trim operation taking a region or address pointer
returns exactly `ERROR_NULL` on a NULL pointer, performs no hardware register
write, and writes nothing through any output pointer. -/
theorem Trim_null_pointer_rejection (hw : TrimHW) (t1 : Nat → Nat)
    (t2 : Nat → Nat × Nat) (tgt a b u c : Nat) (ws : List Nat) :
    Sys_Trim_LoadTrims none t1 t2 hw = (ERROR_NULL, hw) ∧
    Sys_Trim_VerifyTrims none = ERROR_NULL ∧
    Sys_Trim_GetTrim none tgt (some c) u = (ERROR_NULL, some c) ∧
    Sys_Trim_GetTrim (some ws) tgt none u = (ERROR_NULL, none) ∧
    Sys_Trim_LoadBandgap none a b hw = (ERROR_NULL, hw) ∧
    Sys_Trim_LoadDCDC none a hw = (ERROR_NULL, hw) ∧
    Sys_Trim_LoadVDDC none a b hw = (ERROR_NULL, hw) ∧
    Sys_Trim_LoadVDDM none a b hw = (ERROR_NULL, hw) ∧
    Sys_Trim_LoadVDDPA none a hw = (ERROR_NULL, hw) ∧
    Sys_Trim_LoadVDDRF none a hw = (ERROR_NULL, hw) ∧
    Sys_Trim_LoadVDDIF none a hw = (ERROR_NULL, hw) ∧
    Sys_Trim_LoadVDDFLASH none a hw = (ERROR_NULL, hw) ∧
    Sys_Trim_LoadRCOSC none a hw = (ERROR_NULL, hw) ∧
    Sys_Trim_LoadRCOSC32 none a hw = (ERROR_NULL, hw) ∧
    Sys_Trim_LoadThermistor none a hw = (ERROR_NULL, hw) :=
  ⟨rfl, rfl, rfl, rfl, rfl, rfl, rfl, rfl, rfl, rfl, rfl, rfl, rfl, rfl, rfl⟩

/-! ## Claim C2 -/

/-- C2 counterexample: the wake configuration block cannot have the claimed
shape `[stack pointer, vector table base, wake entry, 3 reserved zero words,
CRC]` — that is seven words, while the block written by
`_Sys_PowerModes_Sleep_MemoryRetention` is eight words long (it contains four
reserved zero words before the CRC). -/
theorem MemoryRetention_wake_block_counterexample :
    ¬∃ c, (Sys_PowerModes_Sleep_MemoryRetention linkEnv0 cfgHang 7 sleepHW0).wake_block =
      [linkEnv0.stack, linkEnv0.vtor, linkEnv0.wakeup_from_ram_addr, 0, 0, 0, c] := by
  rintro ⟨c, h⟩
  have hl := congrArg List.length h
  simp [Sys_PowerModes_Sleep_MemoryRetention] at hl

/-- C2 (amended): `_Sys_PowerModes_Sleep_MemoryRetention` writes the wake
configuration block into the linker-reserved RAM region as 8 contiguous 32-bit
words — the stack pointer, the vector table base, the wake entry address
(`_Sys_PowerModes_WakeupFromRAM`), **4** reserved zero words, and the CRC over
the preceding 7 words as the final word — and sets the hardware wake-up
address register (`SYSCTRL->WAKEUP_ADDR`) to the address of that region. -/
theorem MemoryRetention_wake_block (env : LinkEnv) (cfg : SleepModeCfg)
    (ptr : Nat) (hw : SleepHW) :
    (Sys_PowerModes_Sleep_MemoryRetention env cfg ptr hw).wake_block =
      [env.stack, env.vtor, env.wakeup_from_ram_addr, 0, 0, 0, 0,
       Sys_PowerModes_CalculateCRC [env.stack, env.vtor, env.wakeup_from_ram_addr, 0, 0, 0, 0]] ∧
    (Sys_PowerModes_Sleep_MemoryRetention env cfg ptr hw).wake_block.length = 8 ∧
    (Sys_PowerModes_Sleep_MemoryRetention env cfg ptr hw).wakeup_addr =
      env.wakeup_region_addr := by
  refine ⟨rfl, ?_, rfl⟩
  simp [Sys_PowerModes_Sleep_MemoryRetention]

/-! ## Claim C3 -/

/-- C3 counterexample: in the wake handler's trace for an unset application
return address, the infinite loop has an **empty** body — the claim that the
loop periodically refreshes the watchdog is false (the single watchdog refresh
happens once, before the loop is entered). -/
theorem WakeupFromRAM_hang_loop_counterexample :
    WakeAction.spinForever [] ∈ Sys_PowerModes_WakeupFromRAM cfgHang ∧
    ¬∃ body, WakeAction.spinForever body ∈ Sys_PowerModes_WakeupFromRAM cfgHang ∧
      WakeAction.watchdogRefresh ∈ body := by
  constructor
  · simp [Sys_PowerModes_WakeupFromRAM, cfgHang]
  · rintro ⟨body, hmem, hwd⟩
    simp [Sys_PowerModes_WakeupFromRAM, cfgHang] at hmem
    subst hmem
    simp at hwd

/-- C3 (amended): if the application return address is unset the wake handler
never jumps — no `callApp` action occurs — and instead refreshes the watchdog
once and then enters an infinite loop whose body is empty (so the loop itself
never refreshes the watchdog); if the return address is set, the handler's
final action is the tail-call to it and no infinite loop occurs. -/
theorem WakeupFromRAM_app_addr_dispatch (cfg : SleepModeCfg) :
    (cfg.app_addr = 0 →
      (∀ a, WakeAction.callApp a ∉ Sys_PowerModes_WakeupFromRAM cfg) ∧
      (Sys_PowerModes_WakeupFromRAM cfg).getLast? = some (WakeAction.spinForever []) ∧
      WakeAction.watchdogRefresh ∈ Sys_PowerModes_WakeupFromRAM cfg) ∧
    (cfg.app_addr ≠ 0 →
      (Sys_PowerModes_WakeupFromRAM cfg).getLast? = some (WakeAction.callApp cfg.app_addr) ∧
      (∀ body, WakeAction.spinForever body ∉ Sys_PowerModes_WakeupFromRAM cfg)) := by
  constructor
  · intro h0
    by_cases hble : cfg.ble_present ≠ 0 <;>
      simp [Sys_PowerModes_WakeupFromRAM, h0, hble, List.getLast?]
  · intro h1
    by_cases hble : cfg.ble_present ≠ 0 <;>
      simp [Sys_PowerModes_WakeupFromRAM, h1, hble, List.getLast?]

/-- C3 witness: the dispatch theorem applied to a configuration with the
return address unset and to one with it set. -/
theorem WakeupFromRAM_app_addr_dispatch_witness :
    (Sys_PowerModes_WakeupFromRAM cfgHang).getLast? = some (WakeAction.spinForever []) ∧
    WakeAction.callApp 0x20001234 ∉ Sys_PowerModes_WakeupFromRAM cfgHang ∧
    (Sys_PowerModes_WakeupFromRAM cfgCall).getLast? =
      some (WakeAction.callApp 0x20001234) :=
  ⟨((WakeupFromRAM_app_addr_dispatch cfgHang).1 rfl).2.1,
   ((WakeupFromRAM_app_addr_dispatch cfgHang).1 rfl).1 0x20001234,
   ((WakeupFromRAM_app_addr_dispatch cfgCall).2 (by decide)).1⟩

/-! ## Claim C8 -/

/-- C8 counterexample: calling `Sys_Trim_LoadVDDC_private` on a region whose
normal-voltage lookup succeeds with trim value `0x20` while the standby lookup
fails, with a register state whose normal VTRIM byte already holds `0x20`,
leaves the whole register state equal to its pre-call value — the claim that
the normal-voltage trim register *must differ* from its pre-call value is
false.  The partial write and the error mask behave as claimed. -/
theorem LoadVDDC_precall_equal_counterexample :
    Sys_Trim_LoadVDDC_private (some trimR8) 115 0xAB trimHW8 =
      (ERROR_VDDC_STBY_INVALID, trimHW8) ∧
    trimHW8.vddc_ctrl.vtrim = 0x20 := by
  decide

/-- C8 (amended): when the normal-voltage lookup succeeds and the standby
lookup fails, `Sys_Trim_LoadVDDC_private` writes the found value into the
normal VTRIM byte (so it differs from its pre-call value exactly when the
found value differs), leaves the standby byte and every other register
unchanged, and returns exactly the standby-specific error bit; symmetrically,
a successful standby lookup is applied even when the normal lookup fails. -/
theorem LoadVDDC_partial_independence (r : TRIM_Type) (target tstd : Nat) (hw : TrimHW) :
    ((Sys_Trim_GetTrim (some (fieldWords r.vddc byteRecordWord TRIM_RECORDS))
        target (some 0) 0).1 = ERROR_NO_ERROR →
     (Sys_Trim_GetTrim (some (fieldWords r.vddc byteRecordWord TRIM_RECORDS))
        tstd (some 0) 0).1 ≠ ERROR_NO_ERROR →
     Sys_Trim_LoadVDDC_private (some r) target tstd hw =
       (ERROR_VDDC_STBY_INVALID,
        { hw with vddc_ctrl := { hw.vddc_ctrl with
            vtrim := (Sys_Trim_GetTrim (some (fieldWords r.vddc byteRecordWord TRIM_RECORDS))
                        target (some 0) 0).2.getD 0 &&& TRIM_8_BIT_TRIM_MASK } })) ∧
    ((Sys_Trim_GetTrim (some (fieldWords r.vddc byteRecordWord TRIM_RECORDS))
        target (some 0) 0).1 ≠ ERROR_NO_ERROR →
     (Sys_Trim_GetTrim (some (fieldWords r.vddc byteRecordWord TRIM_RECORDS))
        tstd (some 0) 0).1 = ERROR_NO_ERROR →
     Sys_Trim_LoadVDDC_private (some r) target tstd hw =
       (ERROR_VDDC_INVALID,
        { hw with vddc_ctrl := { hw.vddc_ctrl with
            standby_vtrim := (Sys_Trim_GetTrim (some (fieldWords r.vddc byteRecordWord TRIM_RECORDS))
                                tstd (some 0) 0).2.getD 0 &&& TRIM_8_BIT_TRIM_MASK } })) := by
  constructor
  · intro h1 h2
    rw [ERROR_NO_ERROR] at h1 h2
    simp [Sys_Trim_LoadVDDC_private, h1, h2, ERROR_NO_ERROR,
      ERROR_VDDC_INVALID, ERROR_VDDC_STBY_INVALID]
    exact fun hc => absurd (by decide) hc
  · intro h1 h2
    rw [ERROR_NO_ERROR] at h1 h2
    simp [Sys_Trim_LoadVDDC_private, h1, h2, ERROR_NO_ERROR,
      ERROR_VDDC_INVALID, ERROR_VDDC_STBY_INVALID]
    exact fun hc => absurd (by decide) hc

/-- C8 witness: the partial-independence theorem applied to `trimR8`, whose
normal lookup (target 115) succeeds with value `0x20` and whose standby lookup
(target `0xAB`) fails. -/
theorem LoadVDDC_partial_independence_witness :
    Sys_Trim_LoadVDDC_private (some trimR8) 115 0xAB
        { trimHW8 with vddc_ctrl := ⟨0x7, 0x44, 0x9⟩ } =
      (ERROR_VDDC_STBY_INVALID,
       { trimHW8 with vddc_ctrl := ⟨0x20, 0x44, 0x9⟩ }) := by
  have h := (LoadVDDC_partial_independence trimR8 115 0xAB
    { trimHW8 with vddc_ctrl := ⟨0x7, 0x44, 0x9⟩ }).1 (by decide) (by decide)
  rw [h]
  decide

/-! ## Claim C1 -/

/-- C1: on the No-PA path with a positive target, if the measured VCC minus
the 50 mV margin is below the VDDRF level required for the target, the No-PA
attempt returns `ERRNO_RFFE_VCC_INSUFFICIENT` with every register it could
modify (VDDRF trim, VDDPA control, PA_PWR, LSAD and AOUT configuration) equal
to its pre-call value, and `Sys_RFFE_SetTXPower` then invokes the PA path on
that unchanged state within the same call, returning the bitwise OR of
`ERRNO_RFFE_VCC_INSUFFICIENT` and the PA path's result. -/
theorem SetTXPower_vcc_insufficient_fallback (trims : TRIM_Type) (target : Int)
    (ch vcc : Nat) (hw : RffeHW)
    (hch : ch ≤ MAX_LSAD_CHANNEL)
    (ht0 : 0 < target) (ht2 : target ≤ RF_MAX_POWER_NO_VDDPA)
    (hvcc : (((vcc + (2 ^ 32 - 50)) % 2 ^ 32 : Nat) : Int) <
      TARGET_VDDRF_1070 * 10 + target * MV_PER_DBM_VDDRF) :
    Sys_RFFE_SetTXPower_NoVDDPA trims target ch vcc hw = (ERRNO_RFFE_VCC_INSUFFICIENT, hw) ∧
    Sys_RFFE_SetTXPower trims target ch false vcc hw =
      (ERRNO_RFFE_VCC_INSUFFICIENT ||| (Sys_RFFE_SetTXPower_VDDPA trims target hw).1,
       (Sys_RFFE_SetTXPower_VDDPA trims target hw).2) := by
  have hgt : RF_NO_VDDPA_TYPICAL_POWER < target := by
    simpa [RF_NO_VDDPA_TYPICAL_POWER] using ht0
  have hno : Sys_RFFE_SetTXPower_NoVDDPA trims target ch vcc hw =
      (ERRNO_RFFE_VCC_INSUFFICIENT, hw) := by
    simp only [Sys_RFFE_SetTXPower_NoVDDPA, if_pos hgt, if_pos hvcc, ne_eq]
    simp [Function.update_idem, Function.update_eq_self]
  refine ⟨hno, ?_⟩
  have hch' : ¬ch > MAX_LSAD_CHANNEL := by omega
  have hrange : ¬(target > RF_MAX_POWER ∨ target < RF_MIN_POWER) := by
    rw [RF_MAX_POWER, RF_MIN_POWER]
    rw [RF_MAX_POWER_NO_VDDPA] at ht2
    omega
  have hpath : (¬false ∧ target ≤ RF_MAX_POWER_NO_VDDPA ∧ target > 0) ∨ target ≤ 0 :=
    Or.inl ⟨by simp, ht2, ht0⟩
  simp only [Sys_RFFE_SetTXPower, if_neg hch', if_neg hrange, if_pos hpath, hno]
  simp

/-- C1 witness: the fallback theorem at target 2 dBm, channel 6, a measured
VCC of 1000 mV (950 mV after margin, below the required 1220 mV). -/
theorem SetTXPower_vcc_insufficient_fallback_witness :
    Sys_RFFE_SetTXPower_NoVDDPA trimR8 2 6 1000 rffeHW0 =
      (ERRNO_RFFE_VCC_INSUFFICIENT, rffeHW0) ∧
    Sys_RFFE_SetTXPower trimR8 2 6 false 1000 rffeHW0 =
      (ERRNO_RFFE_VCC_INSUFFICIENT ||| (Sys_RFFE_SetTXPower_VDDPA trimR8 2 rffeHW0).1,
       (Sys_RFFE_SetTXPower_VDDPA trimR8 2 rffeHW0).2) :=
  SetTXPower_vcc_insufficient_fallback trimR8 2 6 1000 rffeHW0
    (by decide) (by decide) (by decide) (by decide)

/-! ## Claim C4 -/

/-- C4 counterexample: `Sys_RFFE_SetTXPower(target = 0, pa_en = false)` takes
the No-PA path but does write the VDDPA control registers: starting from a
state with dynamic VDDPA enabled and the VDDPA regulator on, the call rewrites
both the dynamic-control byte (to disable) and `ACS->VDDPA_CTRL` — the claim
that the No-PA path writes only the VDDRF trim and PA_PWR registers and never
touches the VDDPA enable bits is false. -/
theorem SetTXPower_noPA_writes_vddpa_counterexample :
    (Sys_RFFE_SetTXPower trimR8 0 6 false 1000 rffeHW0).2.vddpa_dynamic_ctrl ≠
      rffeHW0.vddpa_dynamic_ctrl ∧
    (Sys_RFFE_SetTXPower trimR8 0 6 false 1000 rffeHW0).2.vddpa_ctrl ≠
      rffeHW0.vddpa_ctrl ∧
    rffeHW0.vddpa_ctrl.enabled = true := by
  refine ⟨?_, ?_, rfl⟩ <;> decide

/-- C4 (amended): a target of 3 dBm selects the PA path
(`Sys_RFFE_SetTXPower_VDDPA`) regardless of the `pa_en` flag; a target of
0 dBm with `pa_en = false` selects the No-PA path, which writes the VDDRF trim
(nominal value) and PA_PWR (the 0 dBm code) registers, restores the LSAD and
AOUT configuration, and additionally writes the VDDPA control register and the
dynamic-control byte with their disable settings and the PA bias disable
value — it never enables VDDPA. -/
theorem SetTXPower_path_selection (trims : TRIM_Type) (ch vcc : Nat)
    (pa_en : Bool) (hw : RffeHW) (hch : ch ≤ MAX_LSAD_CHANNEL) :
    Sys_RFFE_SetTXPower trims 3 ch pa_en vcc hw = Sys_RFFE_SetTXPower_VDDPA trims 3 hw ∧
    Sys_RFFE_SetTXPower trims 0 ch false vcc hw =
      (ERROR_NO_ERROR,
       { hw with vddpa_dynamic_ctrl := DYNAMIC_CTRL_DISABLE_BYTE,
                 vddpa_ctrl := ⟨VDDPA_INITIAL_TRIM_1P10V, VddpaSw.swVddrf, false, false,
                                (trims.vddpa 2).trim_voltage⟩,
                 vddrf_vtrim := (trims.vddrf 1).trim % 2 ^ 8,
                 pa_bias := PA_DISABLE_BIAS_SETTING,
                 pa_pwr := PA_PWR_BYTE_0DBM }) := by
  have hch' : ¬ch > MAX_LSAD_CHANNEL := by omega
  constructor
  · have hrange : ¬((3 : Int) > RF_MAX_POWER ∨ (3 : Int) < RF_MIN_POWER) := by decide
    have hpath : ¬((¬pa_en ∧ (3 : Int) ≤ RF_MAX_POWER_NO_VDDPA ∧ (3 : Int) > 0) ∨
        (3 : Int) ≤ 0) := by
      rw [RF_MAX_POWER_NO_VDDPA]
      rcases pa_en <;> simp
    simp only [Sys_RFFE_SetTXPower, if_neg hch', if_neg hrange, if_neg hpath]
  · have hrange : ¬((0 : Int) > RF_MAX_POWER ∨ (0 : Int) < RF_MIN_POWER) := by decide
    have hpath : (¬false ∧ (0 : Int) ≤ RF_MAX_POWER_NO_VDDPA ∧ (0 : Int) > 0) ∨
        (0 : Int) ≤ 0 := Or.inr (by decide)
    simp only [Sys_RFFE_SetTXPower, if_neg hch', if_neg hrange, if_pos hpath]
    have hng : ¬RF_NO_VDDPA_TYPICAL_POWER < (0 : Int) := by decide
    simp only [Sys_RFFE_SetTXPower_NoVDDPA, if_neg hng]
    norm_num [Function.update_idem, Function.update_eq_self,
      ERRNO_RFFE_VCC_INSUFFICIENT, ERRNO_TX_POWER_MARKER, PA_PWR_BYTE_0DBM]
    have hif1 : ¬(ERROR_NO_ERROR = 4 ||| 48) := by decide
    have hif2 : ¬((12 : Int).toNat = 255) := by decide
    have htn : ((12 : Int)).toNat = 12 := by decide
    simp [hif1, hif2, htn]
    exact fun hc => absurd hc (by decide)

/-- C4 witness: the path-selection theorem at channel 6. -/
theorem SetTXPower_path_selection_witness :
    Sys_RFFE_SetTXPower trimR8 3 6 false 1000 rffeHW0 =
      Sys_RFFE_SetTXPower_VDDPA trimR8 3 rffeHW0 ∧
    (Sys_RFFE_SetTXPower trimR8 0 6 false 1000 rffeHW0).2.pa_pwr = PA_PWR_BYTE_0DBM := by
  refine ⟨(SetTXPower_path_selection trimR8 6 1000 false rffeHW0 (by decide)).1, ?_⟩
  rw [(SetTXPower_path_selection trimR8 6 1000 false rffeHW0 (by decide)).2]

/-! ## Claim C5: helper lemmas

Bit-level characterization of `Sys_Trim_VerifyTrims`.  Each error constant is
a single bit; `testBit` facts, projection lemmas for the interleaved
verification loop, and per-position loop lemmas reduce each flag of the
result to its per-domain condition. -/

/-- Bit positions of `ERROR_INVALID_CRC`. -/
theorem ERROR_INVALID_CRC_testBit (p : Nat) : (ERROR_INVALID_CRC).testBit p = decide (5 = p) := by
  rw [show ERROR_INVALID_CRC = 2 ^ 5 from rfl, Nat.testBit_two_pow]

/-- Bit positions of `ERROR_BG_INVALID`. -/
theorem ERROR_BG_INVALID_testBit (p : Nat) : (ERROR_BG_INVALID).testBit p = decide (6 = p) := by
  rw [show ERROR_BG_INVALID = 2 ^ 6 from rfl, Nat.testBit_two_pow]

/-- Bit positions of `ERROR_DCDC_INVALID`. -/
theorem ERROR_DCDC_INVALID_testBit (p : Nat) : (ERROR_DCDC_INVALID).testBit p = decide (9 = p) := by
  rw [show ERROR_DCDC_INVALID = 2 ^ 9 from rfl, Nat.testBit_two_pow]

/-- Bit positions of `ERROR_VDDC_INVALID`. -/
theorem ERROR_VDDC_INVALID_testBit (p : Nat) : (ERROR_VDDC_INVALID).testBit p = decide (10 = p) := by
  rw [show ERROR_VDDC_INVALID = 2 ^ 10 from rfl, Nat.testBit_two_pow]

/-- Bit positions of `ERROR_VDDM_INVALID`. -/
theorem ERROR_VDDM_INVALID_testBit (p : Nat) : (ERROR_VDDM_INVALID).testBit p = decide (12 = p) := by
  rw [show ERROR_VDDM_INVALID = 2 ^ 12 from rfl, Nat.testBit_two_pow]

/-- Bit positions of `ERROR_VDDRF_INVALID`. -/
theorem ERROR_VDDRF_INVALID_testBit (p : Nat) : (ERROR_VDDRF_INVALID).testBit p = decide (14 = p) := by
  rw [show ERROR_VDDRF_INVALID = 2 ^ 14 from rfl, Nat.testBit_two_pow]

/-- Bit positions of `ERROR_VDDPA_INVALID`. -/
theorem ERROR_VDDPA_INVALID_testBit (p : Nat) : (ERROR_VDDPA_INVALID).testBit p = decide (15 = p) := by
  rw [show ERROR_VDDPA_INVALID = 2 ^ 15 from rfl, Nat.testBit_two_pow]

/-- Bit positions of `ERROR_VDDIF_INVALID`. -/
theorem ERROR_VDDIF_INVALID_testBit (p : Nat) : (ERROR_VDDIF_INVALID).testBit p = decide (17 = p) := by
  rw [show ERROR_VDDIF_INVALID = 2 ^ 17 from rfl, Nat.testBit_two_pow]

/-- Bit positions of `ERROR_VDDFLASH_INVALID`. -/
theorem ERROR_VDDFLASH_INVALID_testBit (p : Nat) : (ERROR_VDDFLASH_INVALID).testBit p = decide (18 = p) := by
  rw [show ERROR_VDDFLASH_INVALID = 2 ^ 18 from rfl, Nat.testBit_two_pow]

/-- Bit positions of `ERROR_RCOSC_INVALID`. -/
theorem ERROR_RCOSC_INVALID_testBit (p : Nat) : (ERROR_RCOSC_INVALID).testBit p = decide (19 = p) := by
  rw [show ERROR_RCOSC_INVALID = 2 ^ 19 from rfl, Nat.testBit_two_pow]

/-- Bit positions of `ERROR_RCOSC32_INVALID`. -/
theorem ERROR_RCOSC32_INVALID_testBit (p : Nat) : (ERROR_RCOSC32_INVALID).testBit p = decide (20 = p) := by
  rw [show ERROR_RCOSC32_INVALID = 2 ^ 20 from rfl, Nat.testBit_two_pow]

/-- Bit positions of `ERROR_LSAD_INVALID`. -/
theorem ERROR_LSAD_INVALID_testBit (p : Nat) : (ERROR_LSAD_INVALID).testBit p = decide (21 = p) := by
  rw [show ERROR_LSAD_INVALID = 2 ^ 21 from rfl, Nat.testBit_two_pow]

/-- Bit positions of `ERROR_TEMPERATURE_INVALID`. -/
theorem ERROR_TEMPERATURE_INVALID_testBit (p : Nat) : (ERROR_TEMPERATURE_INVALID).testBit p = decide (22 = p) := by
  rw [show ERROR_TEMPERATURE_INVALID = 2 ^ 22 from rfl, Nat.testBit_two_pow]

/-- Bit positions of `ERROR_THERMISTOR_INVALID`. -/
theorem ERROR_THERMISTOR_INVALID_testBit (p : Nat) : (ERROR_THERMISTOR_INVALID).testBit p = decide (23 = p) := by
  rw [show ERROR_THERMISTOR_INVALID = 2 ^ 23 from rfl, Nat.testBit_two_pow]

/-- Bit positions of `ERROR_MEASURED_INVALID`. -/
theorem ERROR_MEASURED_INVALID_testBit (p : Nat) : (ERROR_MEASURED_INVALID).testBit p = decide (25 = p) := by
  rw [show ERROR_MEASURED_INVALID = 2 ^ 25 from rfl, Nat.testBit_two_pow]

/-- Bit `p` of the initial `ret_val` (the CRC-check result). -/
theorem initRet_testBit (c : Prop) [Decidable c] (p : Nat) :
    (if c then ERROR_NO_ERROR ||| ERROR_INVALID_CRC else ERROR_NO_ERROR).testBit p
      = (decide c && decide ((5 : Nat) = p)) := by
  by_cases h : c <;>
    simp [h, ERROR_NO_ERROR, Nat.testBit_lor, Nat.zero_testBit, ERROR_INVALID_CRC_testBit]

/-- `valid_found` flag of the bg domain after one loop iteration. -/
theorem verifyVoltageStep_bg (r : TRIM_Type) (i : Nat) (s : VerifyVoltState) :
    (verifyVoltageStep r i s).bg = checkOneFound (sentinel16 (r.bandgap i).target) s.bg := rfl

/-- `valid_found` flag of the dcdc domain after one loop iteration. -/
theorem verifyVoltageStep_dcdc (r : TRIM_Type) (i : Nat) (s : VerifyVoltState) :
    (verifyVoltageStep r i s).dcdc = checkOneFound (sentinel16 (r.dcdc i).target) s.dcdc := rfl

/-- `valid_found` flag of the vddc domain after one loop iteration. -/
theorem verifyVoltageStep_vddc (r : TRIM_Type) (i : Nat) (s : VerifyVoltState) :
    (verifyVoltageStep r i s).vddc = checkOneFound (sentinel8 (r.vddc i).target_voltage) s.vddc := rfl

/-- `valid_found` flag of the vddm domain after one loop iteration. -/
theorem verifyVoltageStep_vddm (r : TRIM_Type) (i : Nat) (s : VerifyVoltState) :
    (verifyVoltageStep r i s).vddm = checkOneFound (sentinel8 (r.vddm i).target_voltage) s.vddm := rfl

/-- `valid_found` flag of the vddrf domain after one loop iteration. -/
theorem verifyVoltageStep_vddrf (r : TRIM_Type) (i : Nat) (s : VerifyVoltState) :
    (verifyVoltageStep r i s).vddrf = checkOneFound (sentinel16 (r.vddrf i).trim) s.vddrf := rfl

/-- `valid_found` flag of the vddpa domain after one loop iteration. -/
theorem verifyVoltageStep_vddpa (r : TRIM_Type) (i : Nat) (s : VerifyVoltState) :
    (verifyVoltageStep r i s).vddpa = checkOneFound (sentinel8 (r.vddpa i).target_voltage) s.vddpa := rfl

/-- `ret_val` after one iteration of the verification loop, as the nested
application of the six domain checks in source order. -/
theorem verifyVoltageStep_ret (r : TRIM_Type) (i : Nat) (s : VerifyVoltState) :
    (verifyVoltageStep r i s).ret =
      checkOneRet (sentinel8 (r.vddpa i).target_voltage) ERROR_VDDPA_INVALID s.vddpa
        (checkOneRet (sentinel16 (r.vddrf i).trim) ERROR_VDDRF_INVALID s.vddrf
          (checkOneRet (sentinel8 (r.vddm i).target_voltage) ERROR_VDDM_INVALID s.vddm
            (checkOneRet (sentinel8 (r.vddc i).target_voltage) ERROR_VDDC_INVALID s.vddc
              (checkOneRet (sentinel16 (r.dcdc i).target) ERROR_DCDC_INVALID s.dcdc
                (checkOneRet (sentinel16 (r.bandgap i).target) ERROR_BG_INVALID s.bg
                  s.ret))))) := rfl

/-- Bit 6 of `ret_val` after one loop iteration. -/
theorem step_ret_testBit6 (r : TRIM_Type) (i : Nat) (s : VerifyVoltState) :
    (verifyVoltageStep r i s).ret.testBit 6 =
      if s.bg then s.ret.testBit 6 else sentinel16 (r.bandgap i).target := by
  rw [verifyVoltageStep_ret]
  simp only [checkOneRet_testBit 6 (by norm_num), ERROR_BG_INVALID_testBit,
    ERROR_DCDC_INVALID_testBit, ERROR_VDDC_INVALID_testBit, ERROR_VDDM_INVALID_testBit,
    ERROR_VDDRF_INVALID_testBit, ERROR_VDDPA_INVALID_testBit]
  simp

/-- Bit 9 of `ret_val` after one loop iteration. -/
theorem step_ret_testBit9 (r : TRIM_Type) (i : Nat) (s : VerifyVoltState) :
    (verifyVoltageStep r i s).ret.testBit 9 =
      if s.dcdc then s.ret.testBit 9 else sentinel16 (r.dcdc i).target := by
  rw [verifyVoltageStep_ret]
  simp only [checkOneRet_testBit 9 (by norm_num), ERROR_BG_INVALID_testBit,
    ERROR_DCDC_INVALID_testBit, ERROR_VDDC_INVALID_testBit, ERROR_VDDM_INVALID_testBit,
    ERROR_VDDRF_INVALID_testBit, ERROR_VDDPA_INVALID_testBit]
  simp

/-- Bit 10 of `ret_val` after one loop iteration. -/
theorem step_ret_testBit10 (r : TRIM_Type) (i : Nat) (s : VerifyVoltState) :
    (verifyVoltageStep r i s).ret.testBit 10 =
      if s.vddc then s.ret.testBit 10 else sentinel8 (r.vddc i).target_voltage := by
  rw [verifyVoltageStep_ret]
  simp only [checkOneRet_testBit 10 (by norm_num), ERROR_BG_INVALID_testBit,
    ERROR_DCDC_INVALID_testBit, ERROR_VDDC_INVALID_testBit, ERROR_VDDM_INVALID_testBit,
    ERROR_VDDRF_INVALID_testBit, ERROR_VDDPA_INVALID_testBit]
  simp

/-- Bit 12 of `ret_val` after one loop iteration. -/
theorem step_ret_testBit12 (r : TRIM_Type) (i : Nat) (s : VerifyVoltState) :
    (verifyVoltageStep r i s).ret.testBit 12 =
      if s.vddm then s.ret.testBit 12 else sentinel8 (r.vddm i).target_voltage := by
  rw [verifyVoltageStep_ret]
  simp only [checkOneRet_testBit 12 (by norm_num), ERROR_BG_INVALID_testBit,
    ERROR_DCDC_INVALID_testBit, ERROR_VDDC_INVALID_testBit, ERROR_VDDM_INVALID_testBit,
    ERROR_VDDRF_INVALID_testBit, ERROR_VDDPA_INVALID_testBit]
  simp

/-- Bit 14 of `ret_val` after one loop iteration. -/
theorem step_ret_testBit14 (r : TRIM_Type) (i : Nat) (s : VerifyVoltState) :
    (verifyVoltageStep r i s).ret.testBit 14 =
      if s.vddrf then s.ret.testBit 14 else sentinel16 (r.vddrf i).trim := by
  rw [verifyVoltageStep_ret]
  simp only [checkOneRet_testBit 14 (by norm_num), ERROR_BG_INVALID_testBit,
    ERROR_DCDC_INVALID_testBit, ERROR_VDDC_INVALID_testBit, ERROR_VDDM_INVALID_testBit,
    ERROR_VDDRF_INVALID_testBit, ERROR_VDDPA_INVALID_testBit]
  simp

/-- Bit 15 of `ret_val` after one loop iteration. -/
theorem step_ret_testBit15 (r : TRIM_Type) (i : Nat) (s : VerifyVoltState) :
    (verifyVoltageStep r i s).ret.testBit 15 =
      if s.vddpa then s.ret.testBit 15 else sentinel8 (r.vddpa i).target_voltage := by
  rw [verifyVoltageStep_ret]
  simp only [checkOneRet_testBit 15 (by norm_num), ERROR_BG_INVALID_testBit,
    ERROR_DCDC_INVALID_testBit, ERROR_VDDC_INVALID_testBit, ERROR_VDDM_INVALID_testBit,
    ERROR_VDDRF_INVALID_testBit, ERROR_VDDPA_INVALID_testBit]
  simp

/-- Any bit other than the six domain flags is preserved by one loop
iteration. -/
theorem step_ret_testBit_other (r : TRIM_Type) (i : Nat) (s : VerifyVoltState) (p : Nat)
    (hp : p < 32) (h6 : (6 : Nat) ≠ p) (h9 : (9 : Nat) ≠ p) (h10 : (10 : Nat) ≠ p)
    (h12 : (12 : Nat) ≠ p) (h14 : (14 : Nat) ≠ p) (h15 : (15 : Nat) ≠ p) :
    (verifyVoltageStep r i s).ret.testBit p = s.ret.testBit p := by
  rw [verifyVoltageStep_ret]
  simp only [checkOneRet_testBit p hp, ERROR_BG_INVALID_testBit,
    ERROR_DCDC_INVALID_testBit, ERROR_VDDC_INVALID_testBit, ERROR_VDDM_INVALID_testBit,
    ERROR_VDDRF_INVALID_testBit, ERROR_VDDPA_INVALID_testBit]
  simp [h6, h9, h10, h12, h14, h15]

/-- Bit 6 of `ret_val` after the whole verification loop: set exactly when
all four records of the domain are sentinels. -/
theorem loop4_testBit6 (r : TRIM_Type) (ret0 : Nat) :
    ((List.range 4).foldl (fun s i => verifyVoltageStep r i s)
        ⟨ret0, false, false, false, false, false, false⟩).ret.testBit 6 =
      ((sentinel16 (r.bandgap 0).target) && (sentinel16 (r.bandgap 1).target) && (sentinel16 (r.bandgap 2).target) && (sentinel16 (r.bandgap 3).target)) := by
  rw [show List.range 4 = [0, 1, 2, 3] from rfl]
  simp only [List.foldl_cons, List.foldl_nil]
  simp only [step_ret_testBit6, verifyVoltageStep_bg]
  simp only [checkOneFound]
  generalize sentinel16 (r.bandgap 0).target = b0
  generalize sentinel16 (r.bandgap 1).target = b1
  generalize sentinel16 (r.bandgap 2).target = b2
  generalize sentinel16 (r.bandgap 3).target = b3
  cases b0 <;> cases b1 <;> cases b2 <;> cases b3 <;> simp

/-- Bit 9 of `ret_val` after the whole verification loop: set exactly when
all four records of the domain are sentinels. -/
theorem loop4_testBit9 (r : TRIM_Type) (ret0 : Nat) :
    ((List.range 4).foldl (fun s i => verifyVoltageStep r i s)
        ⟨ret0, false, false, false, false, false, false⟩).ret.testBit 9 =
      ((sentinel16 (r.dcdc 0).target) && (sentinel16 (r.dcdc 1).target) && (sentinel16 (r.dcdc 2).target) && (sentinel16 (r.dcdc 3).target)) := by
  rw [show List.range 4 = [0, 1, 2, 3] from rfl]
  simp only [List.foldl_cons, List.foldl_nil]
  simp only [step_ret_testBit9, verifyVoltageStep_dcdc]
  simp only [checkOneFound]
  generalize sentinel16 (r.dcdc 0).target = b0
  generalize sentinel16 (r.dcdc 1).target = b1
  generalize sentinel16 (r.dcdc 2).target = b2
  generalize sentinel16 (r.dcdc 3).target = b3
  cases b0 <;> cases b1 <;> cases b2 <;> cases b3 <;> simp

/-- Bit 10 of `ret_val` after the whole verification loop: set exactly when
all four records of the domain are sentinels. -/
theorem loop4_testBit10 (r : TRIM_Type) (ret0 : Nat) :
    ((List.range 4).foldl (fun s i => verifyVoltageStep r i s)
        ⟨ret0, false, false, false, false, false, false⟩).ret.testBit 10 =
      ((sentinel8 (r.vddc 0).target_voltage) && (sentinel8 (r.vddc 1).target_voltage) && (sentinel8 (r.vddc 2).target_voltage) && (sentinel8 (r.vddc 3).target_voltage)) := by
  rw [show List.range 4 = [0, 1, 2, 3] from rfl]
  simp only [List.foldl_cons, List.foldl_nil]
  simp only [step_ret_testBit10, verifyVoltageStep_vddc]
  simp only [checkOneFound]
  generalize sentinel8 (r.vddc 0).target_voltage = b0
  generalize sentinel8 (r.vddc 1).target_voltage = b1
  generalize sentinel8 (r.vddc 2).target_voltage = b2
  generalize sentinel8 (r.vddc 3).target_voltage = b3
  cases b0 <;> cases b1 <;> cases b2 <;> cases b3 <;> simp

/-- Bit 12 of `ret_val` after the whole verification loop: set exactly when
all four records of the domain are sentinels. -/
theorem loop4_testBit12 (r : TRIM_Type) (ret0 : Nat) :
    ((List.range 4).foldl (fun s i => verifyVoltageStep r i s)
        ⟨ret0, false, false, false, false, false, false⟩).ret.testBit 12 =
      ((sentinel8 (r.vddm 0).target_voltage) && (sentinel8 (r.vddm 1).target_voltage) && (sentinel8 (r.vddm 2).target_voltage) && (sentinel8 (r.vddm 3).target_voltage)) := by
  rw [show List.range 4 = [0, 1, 2, 3] from rfl]
  simp only [List.foldl_cons, List.foldl_nil]
  simp only [step_ret_testBit12, verifyVoltageStep_vddm]
  simp only [checkOneFound]
  generalize sentinel8 (r.vddm 0).target_voltage = b0
  generalize sentinel8 (r.vddm 1).target_voltage = b1
  generalize sentinel8 (r.vddm 2).target_voltage = b2
  generalize sentinel8 (r.vddm 3).target_voltage = b3
  cases b0 <;> cases b1 <;> cases b2 <;> cases b3 <;> simp

/-- Bit 14 of `ret_val` after the whole verification loop: set exactly when
all four records of the domain are sentinels. -/
theorem loop4_testBit14 (r : TRIM_Type) (ret0 : Nat) :
    ((List.range 4).foldl (fun s i => verifyVoltageStep r i s)
        ⟨ret0, false, false, false, false, false, false⟩).ret.testBit 14 =
      ((sentinel16 (r.vddrf 0).trim) && (sentinel16 (r.vddrf 1).trim) && (sentinel16 (r.vddrf 2).trim) && (sentinel16 (r.vddrf 3).trim)) := by
  rw [show List.range 4 = [0, 1, 2, 3] from rfl]
  simp only [List.foldl_cons, List.foldl_nil]
  simp only [step_ret_testBit14, verifyVoltageStep_vddrf]
  simp only [checkOneFound]
  generalize sentinel16 (r.vddrf 0).trim = b0
  generalize sentinel16 (r.vddrf 1).trim = b1
  generalize sentinel16 (r.vddrf 2).trim = b2
  generalize sentinel16 (r.vddrf 3).trim = b3
  cases b0 <;> cases b1 <;> cases b2 <;> cases b3 <;> simp

/-- Bit 15 of `ret_val` after the whole verification loop: set exactly when
all four records of the domain are sentinels. -/
theorem loop4_testBit15 (r : TRIM_Type) (ret0 : Nat) :
    ((List.range 4).foldl (fun s i => verifyVoltageStep r i s)
        ⟨ret0, false, false, false, false, false, false⟩).ret.testBit 15 =
      ((sentinel8 (r.vddpa 0).target_voltage) && (sentinel8 (r.vddpa 1).target_voltage) && (sentinel8 (r.vddpa 2).target_voltage) && (sentinel8 (r.vddpa 3).target_voltage)) := by
  rw [show List.range 4 = [0, 1, 2, 3] from rfl]
  simp only [List.foldl_cons, List.foldl_nil]
  simp only [step_ret_testBit15, verifyVoltageStep_vddpa]
  simp only [checkOneFound]
  generalize sentinel8 (r.vddpa 0).target_voltage = b0
  generalize sentinel8 (r.vddpa 1).target_voltage = b1
  generalize sentinel8 (r.vddpa 2).target_voltage = b2
  generalize sentinel8 (r.vddpa 3).target_voltage = b3
  cases b0 <;> cases b1 <;> cases b2 <;> cases b3 <;> simp

/-- Any bit other than the six domain flags is preserved by the whole
verification loop. -/
theorem loop4_testBit_other (r : TRIM_Type) (ret0 : Nat) (p : Nat)
    (hp : p < 32) (h6 : (6 : Nat) ≠ p) (h9 : (9 : Nat) ≠ p) (h10 : (10 : Nat) ≠ p)
    (h12 : (12 : Nat) ≠ p) (h14 : (14 : Nat) ≠ p) (h15 : (15 : Nat) ≠ p) :
    ((List.range 4).foldl (fun s i => verifyVoltageStep r i s)
        ⟨ret0, false, false, false, false, false, false⟩).ret.testBit p =
      ret0.testBit p := by
  rw [show List.range 4 = [0, 1, 2, 3] from rfl]
  simp only [List.foldl_cons, List.foldl_nil]
  simp only [step_ret_testBit_other r _ _ p hp h6 h9 h10 h12 h14 h15]

/-- The invalid-CRC flag of `Sys_Trim_VerifyTrims`. -/
theorem verifyTrimsBit_crc (r : TRIM_Type) :
    Sys_Trim_VerifyTrims (some r) &&& ERROR_INVALID_CRC ≠ 0 ↔
      Sys_Trim_CheckCRC r ≠ ERROR_NO_ERROR := by
  rw [show ERROR_INVALID_CRC = 1 <<< 5 from rfl, and_shift_ne_zero_iff]
  simp only [Sys_Trim_VerifyTrims]
  rw [show List.range TRIM_RC_RECORDS = [0, 1, 2, 3] from rfl]
  simp only [List.foldl_cons, List.foldl_nil]
  simp only [testBit_ite_or, ERROR_VDDIF_INVALID_testBit, ERROR_VDDFLASH_INVALID_testBit,
    ERROR_RCOSC_INVALID_testBit, ERROR_RCOSC32_INVALID_testBit, ERROR_LSAD_INVALID_testBit,
    ERROR_TEMPERATURE_INVALID_testBit, ERROR_THERMISTOR_INVALID_testBit,
    ERROR_MEASURED_INVALID_testBit]
  rw [loop4_testBit_other r _ 5 (by norm_num) (by norm_num) (by norm_num) (by norm_num)
    (by norm_num) (by norm_num) (by norm_num)]
  rw [initRet_testBit]
  simp

/-- The bg flag of `Sys_Trim_VerifyTrims`: set exactly when all four
redundant records are sentinels. -/
theorem verifyTrimsBit_bg (r : TRIM_Type) :
    Sys_Trim_VerifyTrims (some r) &&& ERROR_BG_INVALID ≠ 0 ↔
      ∀ i, i < 4 → sentinel16 (r.bandgap i).target = true := by
  rw [show ERROR_BG_INVALID = 1 <<< 6 from rfl, and_shift_ne_zero_iff]
  have hiff : (∀ i, i < 4 → sentinel16 (r.bandgap i).target = true) ↔
      (sentinel16 (r.bandgap 0).target = true ∧ sentinel16 (r.bandgap 1).target = true ∧
       sentinel16 (r.bandgap 2).target = true ∧ sentinel16 (r.bandgap 3).target = true) := by
    constructor
    · intro h
      exact ⟨h 0 (by norm_num), h 1 (by norm_num), h 2 (by norm_num), h 3 (by norm_num)⟩
    · rintro ⟨h0, h1, h2, h3⟩ i hi
      interval_cases i <;> assumption
  rw [hiff]
  simp only [Sys_Trim_VerifyTrims]
  rw [show List.range TRIM_RC_RECORDS = [0, 1, 2, 3] from rfl]
  simp only [List.foldl_cons, List.foldl_nil]
  simp only [testBit_ite_or, ERROR_VDDIF_INVALID_testBit, ERROR_VDDFLASH_INVALID_testBit,
    ERROR_RCOSC_INVALID_testBit, ERROR_RCOSC32_INVALID_testBit, ERROR_LSAD_INVALID_testBit,
    ERROR_TEMPERATURE_INVALID_testBit, ERROR_THERMISTOR_INVALID_testBit,
    ERROR_MEASURED_INVALID_testBit]
  rw [loop4_testBit6]
  simp
  tauto

/-- The dcdc flag of `Sys_Trim_VerifyTrims`: set exactly when all four
redundant records are sentinels. -/
theorem verifyTrimsBit_dcdc (r : TRIM_Type) :
    Sys_Trim_VerifyTrims (some r) &&& ERROR_DCDC_INVALID ≠ 0 ↔
      ∀ i, i < 4 → sentinel16 (r.dcdc i).target = true := by
  rw [show ERROR_DCDC_INVALID = 1 <<< 9 from rfl, and_shift_ne_zero_iff]
  have hiff : (∀ i, i < 4 → sentinel16 (r.dcdc i).target = true) ↔
      (sentinel16 (r.dcdc 0).target = true ∧ sentinel16 (r.dcdc 1).target = true ∧
       sentinel16 (r.dcdc 2).target = true ∧ sentinel16 (r.dcdc 3).target = true) := by
    constructor
    · intro h
      exact ⟨h 0 (by norm_num), h 1 (by norm_num), h 2 (by norm_num), h 3 (by norm_num)⟩
    · rintro ⟨h0, h1, h2, h3⟩ i hi
      interval_cases i <;> assumption
  rw [hiff]
  simp only [Sys_Trim_VerifyTrims]
  rw [show List.range TRIM_RC_RECORDS = [0, 1, 2, 3] from rfl]
  simp only [List.foldl_cons, List.foldl_nil]
  simp only [testBit_ite_or, ERROR_VDDIF_INVALID_testBit, ERROR_VDDFLASH_INVALID_testBit,
    ERROR_RCOSC_INVALID_testBit, ERROR_RCOSC32_INVALID_testBit, ERROR_LSAD_INVALID_testBit,
    ERROR_TEMPERATURE_INVALID_testBit, ERROR_THERMISTOR_INVALID_testBit,
    ERROR_MEASURED_INVALID_testBit]
  rw [loop4_testBit9]
  simp
  tauto

/-- The vddc flag of `Sys_Trim_VerifyTrims`: set exactly when all four
redundant records are sentinels. -/
theorem verifyTrimsBit_vddc (r : TRIM_Type) :
    Sys_Trim_VerifyTrims (some r) &&& ERROR_VDDC_INVALID ≠ 0 ↔
      ∀ i, i < 4 → sentinel8 (r.vddc i).target_voltage = true := by
  rw [show ERROR_VDDC_INVALID = 1 <<< 10 from rfl, and_shift_ne_zero_iff]
  have hiff : (∀ i, i < 4 → sentinel8 (r.vddc i).target_voltage = true) ↔
      (sentinel8 (r.vddc 0).target_voltage = true ∧ sentinel8 (r.vddc 1).target_voltage = true ∧
       sentinel8 (r.vddc 2).target_voltage = true ∧ sentinel8 (r.vddc 3).target_voltage = true) := by
    constructor
    · intro h
      exact ⟨h 0 (by norm_num), h 1 (by norm_num), h 2 (by norm_num), h 3 (by norm_num)⟩
    · rintro ⟨h0, h1, h2, h3⟩ i hi
      interval_cases i <;> assumption
  rw [hiff]
  simp only [Sys_Trim_VerifyTrims]
  rw [show List.range TRIM_RC_RECORDS = [0, 1, 2, 3] from rfl]
  simp only [List.foldl_cons, List.foldl_nil]
  simp only [testBit_ite_or, ERROR_VDDIF_INVALID_testBit, ERROR_VDDFLASH_INVALID_testBit,
    ERROR_RCOSC_INVALID_testBit, ERROR_RCOSC32_INVALID_testBit, ERROR_LSAD_INVALID_testBit,
    ERROR_TEMPERATURE_INVALID_testBit, ERROR_THERMISTOR_INVALID_testBit,
    ERROR_MEASURED_INVALID_testBit]
  rw [loop4_testBit10]
  simp
  tauto

/-- The vddm flag of `Sys_Trim_VerifyTrims`: set exactly when all four
redundant records are sentinels. -/
theorem verifyTrimsBit_vddm (r : TRIM_Type) :
    Sys_Trim_VerifyTrims (some r) &&& ERROR_VDDM_INVALID ≠ 0 ↔
      ∀ i, i < 4 → sentinel8 (r.vddm i).target_voltage = true := by
  rw [show ERROR_VDDM_INVALID = 1 <<< 12 from rfl, and_shift_ne_zero_iff]
  have hiff : (∀ i, i < 4 → sentinel8 (r.vddm i).target_voltage = true) ↔
      (sentinel8 (r.vddm 0).target_voltage = true ∧ sentinel8 (r.vddm 1).target_voltage = true ∧
       sentinel8 (r.vddm 2).target_voltage = true ∧ sentinel8 (r.vddm 3).target_voltage = true) := by
    constructor
    · intro h
      exact ⟨h 0 (by norm_num), h 1 (by norm_num), h 2 (by norm_num), h 3 (by norm_num)⟩
    · rintro ⟨h0, h1, h2, h3⟩ i hi
      interval_cases i <;> assumption
  rw [hiff]
  simp only [Sys_Trim_VerifyTrims]
  rw [show List.range TRIM_RC_RECORDS = [0, 1, 2, 3] from rfl]
  simp only [List.foldl_cons, List.foldl_nil]
  simp only [testBit_ite_or, ERROR_VDDIF_INVALID_testBit, ERROR_VDDFLASH_INVALID_testBit,
    ERROR_RCOSC_INVALID_testBit, ERROR_RCOSC32_INVALID_testBit, ERROR_LSAD_INVALID_testBit,
    ERROR_TEMPERATURE_INVALID_testBit, ERROR_THERMISTOR_INVALID_testBit,
    ERROR_MEASURED_INVALID_testBit]
  rw [loop4_testBit12]
  simp
  tauto

/-- The vddrf flag of `Sys_Trim_VerifyTrims`: set exactly when all four
redundant records are sentinels. -/
theorem verifyTrimsBit_vddrf (r : TRIM_Type) :
    Sys_Trim_VerifyTrims (some r) &&& ERROR_VDDRF_INVALID ≠ 0 ↔
      ∀ i, i < 4 → sentinel16 (r.vddrf i).trim = true := by
  rw [show ERROR_VDDRF_INVALID = 1 <<< 14 from rfl, and_shift_ne_zero_iff]
  have hiff : (∀ i, i < 4 → sentinel16 (r.vddrf i).trim = true) ↔
      (sentinel16 (r.vddrf 0).trim = true ∧ sentinel16 (r.vddrf 1).trim = true ∧
       sentinel16 (r.vddrf 2).trim = true ∧ sentinel16 (r.vddrf 3).trim = true) := by
    constructor
    · intro h
      exact ⟨h 0 (by norm_num), h 1 (by norm_num), h 2 (by norm_num), h 3 (by norm_num)⟩
    · rintro ⟨h0, h1, h2, h3⟩ i hi
      interval_cases i <;> assumption
  rw [hiff]
  simp only [Sys_Trim_VerifyTrims]
  rw [show List.range TRIM_RC_RECORDS = [0, 1, 2, 3] from rfl]
  simp only [List.foldl_cons, List.foldl_nil]
  simp only [testBit_ite_or, ERROR_VDDIF_INVALID_testBit, ERROR_VDDFLASH_INVALID_testBit,
    ERROR_RCOSC_INVALID_testBit, ERROR_RCOSC32_INVALID_testBit, ERROR_LSAD_INVALID_testBit,
    ERROR_TEMPERATURE_INVALID_testBit, ERROR_THERMISTOR_INVALID_testBit,
    ERROR_MEASURED_INVALID_testBit]
  rw [loop4_testBit14]
  simp
  tauto

/-- The vddpa flag of `Sys_Trim_VerifyTrims`: set exactly when all four
redundant records are sentinels. -/
theorem verifyTrimsBit_vddpa (r : TRIM_Type) :
    Sys_Trim_VerifyTrims (some r) &&& ERROR_VDDPA_INVALID ≠ 0 ↔
      ∀ i, i < 4 → sentinel8 (r.vddpa i).target_voltage = true := by
  rw [show ERROR_VDDPA_INVALID = 1 <<< 15 from rfl, and_shift_ne_zero_iff]
  have hiff : (∀ i, i < 4 → sentinel8 (r.vddpa i).target_voltage = true) ↔
      (sentinel8 (r.vddpa 0).target_voltage = true ∧ sentinel8 (r.vddpa 1).target_voltage = true ∧
       sentinel8 (r.vddpa 2).target_voltage = true ∧ sentinel8 (r.vddpa 3).target_voltage = true) := by
    constructor
    · intro h
      exact ⟨h 0 (by norm_num), h 1 (by norm_num), h 2 (by norm_num), h 3 (by norm_num)⟩
    · rintro ⟨h0, h1, h2, h3⟩ i hi
      interval_cases i <;> assumption
  rw [hiff]
  simp only [Sys_Trim_VerifyTrims]
  rw [show List.range TRIM_RC_RECORDS = [0, 1, 2, 3] from rfl]
  simp only [List.foldl_cons, List.foldl_nil]
  simp only [testBit_ite_or, ERROR_VDDIF_INVALID_testBit, ERROR_VDDFLASH_INVALID_testBit,
    ERROR_RCOSC_INVALID_testBit, ERROR_RCOSC32_INVALID_testBit, ERROR_LSAD_INVALID_testBit,
    ERROR_TEMPERATURE_INVALID_testBit, ERROR_THERMISTOR_INVALID_testBit,
    ERROR_MEASURED_INVALID_testBit]
  rw [loop4_testBit15]
  simp
  tauto

/-- The vddif flag of `Sys_Trim_VerifyTrims`. -/
theorem verifyTrimsBit_vddif (r : TRIM_Type) :
    Sys_Trim_VerifyTrims (some r) &&& ERROR_VDDIF_INVALID ≠ 0 ↔ sentinel16 (r.vddif 0).target = true := by
  rw [show ERROR_VDDIF_INVALID = 1 <<< 17 from rfl, and_shift_ne_zero_iff]
  simp only [Sys_Trim_VerifyTrims]
  rw [show List.range TRIM_RC_RECORDS = [0, 1, 2, 3] from rfl]
  simp only [List.foldl_cons, List.foldl_nil]
  simp only [testBit_ite_or, ERROR_VDDIF_INVALID_testBit, ERROR_VDDFLASH_INVALID_testBit,
    ERROR_RCOSC_INVALID_testBit, ERROR_RCOSC32_INVALID_testBit, ERROR_LSAD_INVALID_testBit,
    ERROR_TEMPERATURE_INVALID_testBit, ERROR_THERMISTOR_INVALID_testBit,
    ERROR_MEASURED_INVALID_testBit]
  rw [loop4_testBit_other r _ 17 (by norm_num) (by norm_num) (by norm_num) (by norm_num)
    (by norm_num) (by norm_num) (by norm_num)]
  rw [initRet_testBit]
  simp

/-- The vddflash flag of `Sys_Trim_VerifyTrims`. -/
theorem verifyTrimsBit_vddflash (r : TRIM_Type) :
    Sys_Trim_VerifyTrims (some r) &&& ERROR_VDDFLASH_INVALID ≠ 0 ↔ sentinel16 (r.vddflash 0).target = true := by
  rw [show ERROR_VDDFLASH_INVALID = 1 <<< 18 from rfl, and_shift_ne_zero_iff]
  simp only [Sys_Trim_VerifyTrims]
  rw [show List.range TRIM_RC_RECORDS = [0, 1, 2, 3] from rfl]
  simp only [List.foldl_cons, List.foldl_nil]
  simp only [testBit_ite_or, ERROR_VDDIF_INVALID_testBit, ERROR_VDDFLASH_INVALID_testBit,
    ERROR_RCOSC_INVALID_testBit, ERROR_RCOSC32_INVALID_testBit, ERROR_LSAD_INVALID_testBit,
    ERROR_TEMPERATURE_INVALID_testBit, ERROR_THERMISTOR_INVALID_testBit,
    ERROR_MEASURED_INVALID_testBit]
  rw [loop4_testBit_other r _ 18 (by norm_num) (by norm_num) (by norm_num) (by norm_num)
    (by norm_num) (by norm_num) (by norm_num)]
  rw [initRet_testBit]
  simp

/-- The rcosc32 flag of `Sys_Trim_VerifyTrims`. -/
theorem verifyTrimsBit_rcosc32 (r : TRIM_Type) :
    Sys_Trim_VerifyTrims (some r) &&& ERROR_RCOSC32_INVALID ≠ 0 ↔ sentinel16 (r.rcosc32 0).target = true := by
  rw [show ERROR_RCOSC32_INVALID = 1 <<< 20 from rfl, and_shift_ne_zero_iff]
  simp only [Sys_Trim_VerifyTrims]
  rw [show List.range TRIM_RC_RECORDS = [0, 1, 2, 3] from rfl]
  simp only [List.foldl_cons, List.foldl_nil]
  simp only [testBit_ite_or, ERROR_VDDIF_INVALID_testBit, ERROR_VDDFLASH_INVALID_testBit,
    ERROR_RCOSC_INVALID_testBit, ERROR_RCOSC32_INVALID_testBit, ERROR_LSAD_INVALID_testBit,
    ERROR_TEMPERATURE_INVALID_testBit, ERROR_THERMISTOR_INVALID_testBit,
    ERROR_MEASURED_INVALID_testBit]
  rw [loop4_testBit_other r _ 20 (by norm_num) (by norm_num) (by norm_num) (by norm_num)
    (by norm_num) (by norm_num) (by norm_num)]
  rw [initRet_testBit]
  simp

/-- The therm flag of `Sys_Trim_VerifyTrims`. -/
theorem verifyTrimsBit_therm (r : TRIM_Type) :
    Sys_Trim_VerifyTrims (some r) &&& ERROR_THERMISTOR_INVALID ≠ 0 ↔ sentinel16 (r.thermistor 0).bias = true := by
  rw [show ERROR_THERMISTOR_INVALID = 1 <<< 23 from rfl, and_shift_ne_zero_iff]
  simp only [Sys_Trim_VerifyTrims]
  rw [show List.range TRIM_RC_RECORDS = [0, 1, 2, 3] from rfl]
  simp only [List.foldl_cons, List.foldl_nil]
  simp only [testBit_ite_or, ERROR_VDDIF_INVALID_testBit, ERROR_VDDFLASH_INVALID_testBit,
    ERROR_RCOSC_INVALID_testBit, ERROR_RCOSC32_INVALID_testBit, ERROR_LSAD_INVALID_testBit,
    ERROR_TEMPERATURE_INVALID_testBit, ERROR_THERMISTOR_INVALID_testBit,
    ERROR_MEASURED_INVALID_testBit]
  rw [loop4_testBit_other r _ 23 (by norm_num) (by norm_num) (by norm_num) (by norm_num)
    (by norm_num) (by norm_num) (by norm_num)]
  rw [initRet_testBit]
  simp

/-- The RC-oscillator flag of `Sys_Trim_VerifyTrims`: set exactly when at
least one of the checked records (even indices) is a sentinel. -/
theorem verifyTrimsBit_rcosc (r : TRIM_Type) :
    Sys_Trim_VerifyTrims (some r) &&& ERROR_RCOSC_INVALID ≠ 0 ↔
      ∃ i, i < TRIM_RC_RECORDS ∧ sentinel16 (r.rcosc (i * 2)).target = true := by
  rw [show ERROR_RCOSC_INVALID = 1 <<< 19 from rfl, and_shift_ne_zero_iff]
  have hiff : (∃ i, i < TRIM_RC_RECORDS ∧ sentinel16 (r.rcosc (i * 2)).target = true) ↔
      (sentinel16 (r.rcosc 0).target = true ∨ sentinel16 (r.rcosc 2).target = true ∨
       sentinel16 (r.rcosc 4).target = true ∨ sentinel16 (r.rcosc 6).target = true) := by
    constructor
    · rintro ⟨i, hi, hs⟩
      rw [TRIM_RC_RECORDS] at hi
      interval_cases i <;> simp_all
    · rintro (h | h | h | h)
      · exact ⟨0, by rw [TRIM_RC_RECORDS]; omega, by simpa using h⟩
      · exact ⟨1, by rw [TRIM_RC_RECORDS]; omega, by simpa using h⟩
      · exact ⟨2, by rw [TRIM_RC_RECORDS]; omega, by simpa using h⟩
      · exact ⟨3, by rw [TRIM_RC_RECORDS]; omega, by simpa using h⟩
  rw [hiff]
  simp only [Sys_Trim_VerifyTrims]
  rw [show List.range TRIM_RC_RECORDS = [0, 1, 2, 3] from rfl]
  simp only [List.foldl_cons, List.foldl_nil]
  simp only [testBit_ite_or, ERROR_VDDIF_INVALID_testBit, ERROR_VDDFLASH_INVALID_testBit,
    ERROR_RCOSC_INVALID_testBit, ERROR_RCOSC32_INVALID_testBit, ERROR_LSAD_INVALID_testBit,
    ERROR_TEMPERATURE_INVALID_testBit, ERROR_THERMISTOR_INVALID_testBit,
    ERROR_MEASURED_INVALID_testBit]
  rw [loop4_testBit_other r _ 19 (by norm_num) (by norm_num) (by norm_num) (by norm_num)
    (by norm_num) (by norm_num) (by norm_num)]
  rw [initRet_testBit]
  simp
  tauto

/-- The LSAD flag of `Sys_Trim_VerifyTrims` (either of its two checks). -/
theorem verifyTrimsBit_lsad (r : TRIM_Type) :
    Sys_Trim_VerifyTrims (some r) &&& ERROR_LSAD_INVALID ≠ 0 ↔
      (sentinel16 r.lsad_trim.hf_offset = true ∨ r.lsad_trim.hf_gain = MIN_32_BIT ∨
       r.lsad_trim.lf_gain = MAX_32_BIT) := by
  rw [show ERROR_LSAD_INVALID = 1 <<< 21 from rfl, and_shift_ne_zero_iff]
  simp only [Sys_Trim_VerifyTrims]
  rw [show List.range TRIM_RC_RECORDS = [0, 1, 2, 3] from rfl]
  simp only [List.foldl_cons, List.foldl_nil]
  simp only [testBit_ite_or, ERROR_VDDIF_INVALID_testBit, ERROR_VDDFLASH_INVALID_testBit,
    ERROR_RCOSC_INVALID_testBit, ERROR_RCOSC32_INVALID_testBit, ERROR_LSAD_INVALID_testBit,
    ERROR_TEMPERATURE_INVALID_testBit, ERROR_THERMISTOR_INVALID_testBit,
    ERROR_MEASURED_INVALID_testBit]
  rw [loop4_testBit_other r _ 21 (by norm_num) (by norm_num) (by norm_num) (by norm_num)
    (by norm_num) (by norm_num) (by norm_num)]
  rw [initRet_testBit]
  simp

/-- The temperature-sensor flag of `Sys_Trim_VerifyTrims`. -/
theorem verifyTrimsBit_temp (r : TRIM_Type) :
    Sys_Trim_VerifyTrims (some r) &&& ERROR_TEMPERATURE_INVALID ≠ 0 ↔
      (r.temp_sensor.offset = MIN_32_BIT ∨ r.temp_sensor.offset = MAX_32_BIT) := by
  rw [show ERROR_TEMPERATURE_INVALID = 1 <<< 22 from rfl, and_shift_ne_zero_iff]
  simp only [Sys_Trim_VerifyTrims]
  rw [show List.range TRIM_RC_RECORDS = [0, 1, 2, 3] from rfl]
  simp only [List.foldl_cons, List.foldl_nil]
  simp only [testBit_ite_or, ERROR_VDDIF_INVALID_testBit, ERROR_VDDFLASH_INVALID_testBit,
    ERROR_RCOSC_INVALID_testBit, ERROR_RCOSC32_INVALID_testBit, ERROR_LSAD_INVALID_testBit,
    ERROR_TEMPERATURE_INVALID_testBit, ERROR_THERMISTOR_INVALID_testBit,
    ERROR_MEASURED_INVALID_testBit]
  rw [loop4_testBit_other r _ 22 (by norm_num) (by norm_num) (by norm_num) (by norm_num)
    (by norm_num) (by norm_num) (by norm_num)]
  rw [initRet_testBit]
  simp

/-- The measured-references flag of `Sys_Trim_VerifyTrims`. -/
theorem verifyTrimsBit_measured (r : TRIM_Type) :
    Sys_Trim_VerifyTrims (some r) &&& ERROR_MEASURED_INVALID ≠ 0 ↔
      (sentinel16 r.measured.temp_sensor_30C = true ∨
       sentinel16 r.measured.bandgap_vref_0_75V = true ∨
       sentinel16 r.measured.lsad_vref_1_0V_internal = true ∨
       sentinel16 r.measured.wedac_600mV = true) := by
  rw [show ERROR_MEASURED_INVALID = 1 <<< 25 from rfl, and_shift_ne_zero_iff]
  simp only [Sys_Trim_VerifyTrims]
  rw [show List.range TRIM_RC_RECORDS = [0, 1, 2, 3] from rfl]
  simp only [List.foldl_cons, List.foldl_nil]
  simp only [testBit_ite_or, ERROR_VDDIF_INVALID_testBit, ERROR_VDDFLASH_INVALID_testBit,
    ERROR_RCOSC_INVALID_testBit, ERROR_RCOSC32_INVALID_testBit, ERROR_LSAD_INVALID_testBit,
    ERROR_TEMPERATURE_INVALID_testBit, ERROR_THERMISTOR_INVALID_testBit,
    ERROR_MEASURED_INVALID_testBit]
  rw [loop4_testBit_other r _ 25 (by norm_num) (by norm_num) (by norm_num) (by norm_num)
    (by norm_num) (by norm_num) (by norm_num)]
  rw [initRet_testBit]
  simp

/-- C5 counterexample: the claim that a domain's error flag is set **iff
none** of its redundant sub-records has a non-sentinel target fails twice on
`trimVerifyCE`.  The RC-oscillator record at index 0 is valid (non-sentinel
target) while the record at index 2 is a sentinel, yet
`Sys_Trim_VerifyTrims` reports `ERROR_RCOSC_INVALID` (that flag is set as
soon as *any* checked record is a sentinel).  And every VDDRF record carries
a sentinel target, yet `ERROR_VDDRF_INVALID` is **not** set, because the
source inspects the VDDRF records' trim field, not their target
(trim.c lines 291-292). -/
theorem VerifyTrims_rcosc_counterexample :
    (Sys_Trim_VerifyTrims (some trimVerifyCE) &&& ERROR_RCOSC_INVALID ≠ 0 ∧
     sentinel16 (trimVerifyCE.rcosc 0).target = false) ∧
    (Sys_Trim_VerifyTrims (some trimVerifyCE) &&& ERROR_VDDRF_INVALID = 0 ∧
     ∀ i, i < 4 → sentinel16 (trimVerifyCE.vddrf i).target = true) := by
  decide

/-- C5 (amended): `Sys_Trim_VerifyTrims` checks every domain independently and
returns a bitmask with `ERROR_INVALID_CRC` exactly when `Sys_Trim_CheckCRC`
fails; for the bandgap, DCDC, VDDC, VDDM and VDDPA domains the domain flag is
set iff none of the four sub-records has a non-sentinel target; for VDDRF the
flag is set iff none of the four sub-records has a non-sentinel **trim**
field (the source inspects the records' trim value, not their target); for
the RC-oscillator domain the flag is set iff **any** of its checked records
is a sentinel; the remaining domains check only their first record (or their
specific scalar fields). -/
theorem VerifyTrims_domain_flags (r : TRIM_Type) :
    (Sys_Trim_VerifyTrims (some r) &&& ERROR_INVALID_CRC ≠ 0 ↔
      Sys_Trim_CheckCRC r ≠ ERROR_NO_ERROR) ∧
    (Sys_Trim_VerifyTrims (some r) &&& ERROR_BG_INVALID ≠ 0 ↔
      ∀ i, i < 4 → sentinel16 (r.bandgap i).target = true) ∧
    (Sys_Trim_VerifyTrims (some r) &&& ERROR_DCDC_INVALID ≠ 0 ↔
      ∀ i, i < 4 → sentinel16 (r.dcdc i).target = true) ∧
    (Sys_Trim_VerifyTrims (some r) &&& ERROR_VDDC_INVALID ≠ 0 ↔
      ∀ i, i < 4 → sentinel8 (r.vddc i).target_voltage = true) ∧
    (Sys_Trim_VerifyTrims (some r) &&& ERROR_VDDM_INVALID ≠ 0 ↔
      ∀ i, i < 4 → sentinel8 (r.vddm i).target_voltage = true) ∧
    (Sys_Trim_VerifyTrims (some r) &&& ERROR_VDDRF_INVALID ≠ 0 ↔
      ∀ i, i < 4 → sentinel16 (r.vddrf i).trim = true) ∧
    (Sys_Trim_VerifyTrims (some r) &&& ERROR_VDDPA_INVALID ≠ 0 ↔
      ∀ i, i < 4 → sentinel8 (r.vddpa i).target_voltage = true) ∧
    (Sys_Trim_VerifyTrims (some r) &&& ERROR_VDDIF_INVALID ≠ 0 ↔
      sentinel16 (r.vddif 0).target = true) ∧
    (Sys_Trim_VerifyTrims (some r) &&& ERROR_VDDFLASH_INVALID ≠ 0 ↔
      sentinel16 (r.vddflash 0).target = true) ∧
    (Sys_Trim_VerifyTrims (some r) &&& ERROR_RCOSC_INVALID ≠ 0 ↔
      ∃ i, i < TRIM_RC_RECORDS ∧ sentinel16 (r.rcosc (i * 2)).target = true) ∧
    (Sys_Trim_VerifyTrims (some r) &&& ERROR_RCOSC32_INVALID ≠ 0 ↔
      sentinel16 (r.rcosc32 0).target = true) ∧
    (Sys_Trim_VerifyTrims (some r) &&& ERROR_LSAD_INVALID ≠ 0 ↔
      (sentinel16 r.lsad_trim.hf_offset = true ∨ r.lsad_trim.hf_gain = MIN_32_BIT ∨
       r.lsad_trim.lf_gain = MAX_32_BIT)) ∧
    (Sys_Trim_VerifyTrims (some r) &&& ERROR_TEMPERATURE_INVALID ≠ 0 ↔
      (r.temp_sensor.offset = MIN_32_BIT ∨ r.temp_sensor.offset = MAX_32_BIT)) ∧
    (Sys_Trim_VerifyTrims (some r) &&& ERROR_THERMISTOR_INVALID ≠ 0 ↔
      sentinel16 (r.thermistor 0).bias = true) ∧
    (Sys_Trim_VerifyTrims (some r) &&& ERROR_MEASURED_INVALID ≠ 0 ↔
      (sentinel16 r.measured.temp_sensor_30C = true ∨
       sentinel16 r.measured.bandgap_vref_0_75V = true ∨
       sentinel16 r.measured.lsad_vref_1_0V_internal = true ∨
       sentinel16 r.measured.wedac_600mV = true)) :=
  ⟨verifyTrimsBit_crc r, verifyTrimsBit_bg r, verifyTrimsBit_dcdc r, verifyTrimsBit_vddc r,
   verifyTrimsBit_vddm r, verifyTrimsBit_vddrf r, verifyTrimsBit_vddpa r,
   verifyTrimsBit_vddif r, verifyTrimsBit_vddflash r, verifyTrimsBit_rcosc r,
   verifyTrimsBit_rcosc32 r, verifyTrimsBit_lsad r, verifyTrimsBit_temp r,
   verifyTrimsBit_therm r, verifyTrimsBit_measured r⟩

end HAL
